import Mathlib

/-!
# Azure Automation resource handlers

A shallow embedding of the Account, Runbook and Schedule handlers of
`azurerm/resource_arm_automation_*.go`.

* Go values of type `interface{}` are the inductive `Value`.
* A handler that takes `d *schema.ResourceData` and the provider client takes the local
  state `d` and a `World`: the state of the remote service together with the log of
  what the handler did (remote calls, `log.Printf` lines, handler entries).
* A handler ends either by returning (`Run.returned`, with the Go `error` or `none` for
  `nil`) or by a run-time panic (`Run.panicked`).
* Functions of the package that the handlers call but whose source is not part of the
  development (`parseAzureResourceID`, `responseWasNotFound`, ...) are fields of `Helpers`
  and every theorem holds for all of them; `tagsSchema` is modelled from the spec.
-/

namespace Azurerm

/-! ## Go values -/

/-- Go `error` value, identified by its message. -/
structure GoError where
  msg : String
deriving DecidableEq, Repr

/-- Run-time panics the handlers can raise. -/
inductive Panic where
  | indexOutOfRange
  | typeAssertion
  | nilDereference
deriving DecidableEq, Repr

/-- Dynamic Go value (`interface{}`), with the shapes the handlers move around.
`nil` stands for the nil interface and for a nil pointer alike; `set` is a
`*schema.Set`, its items keyed by hash code. -/
inductive Value where
  | nil
  | str (s : String)
  | int (n : Int)
  | bool (b : Bool)
  | ptr (target : Value)
  | map (entries : List (String × Value))
  | set (items : List (Int × Value))

/-- Go `map[string]interface{}`. -/
abbrev GoMap := List (String × Value)

/-- Map read `m[k]`: the zero value (nil interface) when the key is missing. -/
def GoMap.index (m : GoMap) (k : String) : Value :=
  match m.find? (fun e => e.1 == k) with
  | some e => e.2
  | none => Value.nil

/-- Map write `m[k] = v`: replaces the entry of an existing key, adds one otherwise. -/
def GoMap.assign : GoMap → String → Value → GoMap
  | [], k, v => [(k, v)]
  | e :: rest, k, v => if e.1 == k then (k, v) :: rest else e :: GoMap.assign rest k v

/-- Go `map[string]string` read: the empty string when the key is missing. -/
def stringMapIndex (m : List (String × String)) (k : String) : String :=
  match m.find? (fun e => e.1 == k) with
  | some e => e.2
  | none => ""

/-- Type assertion `v.(string)`. -/
def Value.asString : Value → Except Panic String
  | .str s => .ok s
  | _ => .error .typeAssertion

/-- Type assertion `v.(bool)`. -/
def Value.asBool : Value → Except Panic Bool
  | .bool b => .ok b
  | _ => .error .typeAssertion

/-- Type assertion `v.(map[string]interface{})`. -/
def Value.asMap : Value → Except Panic GoMap
  | .map m => .ok m
  | _ => .error .typeAssertion

/-- Type assertion `v.(*schema.Set)`. -/
def Value.asSet : Value → Except Panic (List (Int × Value))
  | .set s => .ok s
  | _ => .error .typeAssertion

/-- A `*string` handed over as an `interface{}`. -/
def Value.ofStringPtr : Option String → Value
  | none => .nil
  | some s => .ptr (.str s)

/-- A `*bool` handed over as an `interface{}`. -/
def Value.ofBoolPtr : Option Bool → Value
  | none => .nil
  | some b => .ptr (.bool b)

/-- A `*map[string]interface{}` handed over as an `interface{}`. -/
def Value.ofMapPtr : Option GoMap → Value
  | none => .nil
  | some m => .ptr (.map m)

/-- Pointer dereference `*p` (and field access through a pointer): panics on nil. -/
def deref {α : Type} : Option α → Except Panic α
  | some a => .ok a
  | none => .error .nilDereference

/-- Slice read `xs[i]`: panics when out of range. -/
def sliceIndex {α : Type} (xs : List α) (i : Nat) : Except Panic α :=
  match xs.get? i with
  | some a => .ok a
  | none => .error .indexOutOfRange

/-! ## `schema.Set` and `schema.ResourceData` -/

/-- `schema.Set`: the items, each under the hash code its `F` gave it. -/
abbrev SchemaSet := List (Int × Value)

/-- Method `(*schema.Set).Add`: hashes the item with `F` (so a panic of `F` is a panic of
`Add`) and stores it under that code unless the code is already taken. -/
def SchemaSet.Add (F : Value → Except Panic Int) (s : SchemaSet) (item : Value) :
    Except Panic SchemaSet :=
  match F item with
  | .error p => .error p
  | .ok code => if s.any (fun e => e.1 == code) then .ok s else .ok (s ++ [(code, item)])

/-- Method `(*schema.Set).List`: the items. The handlers only read element 0 and the
schemas bound the sets by `MaxItems: 1`; the order among several items is the stored
one. -/
def SchemaSet.List (s : SchemaSet) : List Value :=
  s.map Prod.snd

/-- Type `schema.ValueType`, as far as the three resources use it. -/
inductive ValueType where
  | TypeBool
  | TypeInt
  | TypeString
  | TypeMap
  | TypeSet
deriving DecidableEq, Repr

/-- Zero value `d.Get` answers with for a field of the given type that has no value. -/
def ValueType.zero : ValueType → Value
  | .TypeBool => .bool false
  | .TypeInt => .int 0
  | .TypeString => .str ""
  | .TypeMap => .map []
  | .TypeSet => .set []

/-- Function `strings.ToLower`, on the ASCII letters. -/
def ToLower (s : String) : String :=
  String.mk (s.data.map Char.toLower)

/-- Function `validation.StringInSlice(valid, ignoreCase)` applied to a string: whether
the string is one of `valid`, up to case when `ignoreCase`. -/
def StringInSlice (valid : List String) (ignoreCase : Bool) (v : String) : Bool :=
  valid.any (fun s => v == s || (ignoreCase && ToLower v == ToLower s))

/-- Type `schema.Schema` for a field inside a nested block (`Elem`). Functions are
recorded by name, `ValidateFunc` by the arguments of `validation.StringInSlice`. -/
structure ElemSchema where
  Typ : ValueType
  Required : Bool := false
  DiffSuppressFunc : Option String := none
  ValidateFunc : Option (List String × Bool) := none

/-- Type `schema.Schema` for a top-level field (`Typ` is its `Type`). Fields the
declaration leaves out have their Go zero value. -/
structure Schema where
  Typ : ValueType
  Required : Bool := false
  ForceNew : Bool := false
  MaxItems : Nat := 0
  StateFunc : Option String := none
  DiffSuppressFunc : Option String := none
  ValidateFunc : Option (List String × Bool) := none
  Elem : List (String × ElemSchema) := []
  Set : Option String := none

/-- Local state of one resource (`schema.ResourceData`): the schema it was made for,
the identity and the key/value bag of fields. -/
structure ResourceData where
  schema : List (String × Schema)
  id : String
  fields : GoMap

/-- Method `d.Id()`. -/
def ResourceData.Id (d : ResourceData) : String := d.id

/-- Method `d.SetId(v)`. -/
def ResourceData.SetId (d : ResourceData) (v : String) : ResourceData :=
  { d with id := v }

/-- Method `d.Get(key)`: the stored value; for a key without one the zero value of the
type the schema declares, and nil when the schema does not have the key. -/
def ResourceData.Get (d : ResourceData) (key : String) : Value :=
  match d.fields.find? (fun e => e.1 == key) with
  | some e => e.2
  | none =>
    match d.schema.find? (fun e => e.1 == key) with
    | some e => e.2.Typ.zero
    | none => Value.nil

/-- What `d.Set` stores for a value: a pointer to a non-struct is followed once. -/
def Value.indirect : Value → Value
  | .ptr v => v
  | v => v

/-- Whether the writer of a field of the given type takes the value. -/
def ValueType.accepts : ValueType → Value → Bool
  | .TypeBool, .bool _ => true
  | .TypeInt, .int _ => true
  | .TypeString, .str _ => true
  | .TypeMap, .map _ => true
  | .TypeSet, .set _ => true
  | _, _ => false

/-- Method `d.Set(key, value)`. A pointer is followed once. For a key of the schema, nil
resets the field to the zero value of its type, a value of the declared type is stored,
and any other value is refused with the field left as it was; a key the schema does not
have is refused as well. The error `Set` returns on a refusal is dropped by every caller
in the handlers, so the result is the local state alone. -/
def ResourceData.Set (d : ResourceData) (key : String) (v : Value) : ResourceData :=
  match d.schema.find? (fun e => e.1 == key) with
  | none => d
  | some e =>
    match v.indirect with
    | .nil => { d with fields := GoMap.assign d.fields key e.2.Typ.zero }
    | x =>
      if e.2.Typ.accepts x then { d with fields := GoMap.assign d.fields key x }
      else d

/-! ## HTTP and the Azure SDK types -/

/-- Type `http.Response`, its status code. -/
structure HttpResponse where
  StatusCode : Nat

/-- Constant `http.StatusNotFound`. -/
def StatusNotFound : Nat := 404

/-- Type `autorest.Response`, which embeds `*http.Response`. -/
structure AutorestResponse where
  Response : Option HttpResponse

/-- Promoted field `resp.StatusCode` of an `autorest.Response`: read through the
embedded pointer. -/
def AutorestResponse.StatusCode (r : AutorestResponse) : Except Panic Nat :=
  match r.Response with
  | some http => .ok http.StatusCode
  | none => .error .nilDereference

/-- Go `*map[string]*string` (resource tags). -/
abbrev Tags := Option (List (String × Option String))

/-- Type `automation.Sku`. -/
structure Sku where
  Name : String

/-- Type `automation.AccountProperties` (embedded by pointer in `Account`). -/
structure AccountProperties where
  Sku : Option Sku

/-- Type `automation.Account`. -/
structure Account where
  Response : AutorestResponse
  ID : Option String
  Name : Option String
  Location : Option String
  Tags : Tags
  AccountProperties : Option AccountProperties

/-- Type `automation.AccountCreateOrUpdateProperties`. -/
structure AccountCreateOrUpdateProperties where
  Sku : Option Sku

/-- Type `automation.AccountCreateOrUpdateParameters`. -/
structure AccountCreateOrUpdateParameters where
  AccountCreateOrUpdateProperties : Option AccountCreateOrUpdateProperties
  Name : Option String
  Location : Option String
  Tags : Tags

/-- Type `automation.ContentLink`. -/
structure ContentLink where
  URI : Option String

/-- Type `automation.RunbookProperties` (embedded by pointer in `Runbook`). -/
structure RunbookProperties where
  RunbookType : String
  PublishContentLink : Option ContentLink
  LogVerbose : Option Bool
  LogProgress : Option Bool
  Description : Option String

/-- Type `automation.Runbook`. -/
structure Runbook where
  Response : AutorestResponse
  ID : Option String
  Name : Option String
  Location : Option String
  Tags : Tags
  RunbookProperties : Option RunbookProperties

/-- Type `automation.RunbookCreateOrUpdateProperties`. -/
structure RunbookCreateOrUpdateProperties where
  LogVerbose : Option Bool
  LogProgress : Option Bool
  RunbookType : String
  Description : Option String
  PublishContentLink : Option ContentLink

/-- Type `automation.RunbookCreateOrUpdateParameters`. -/
structure RunbookCreateOrUpdateParameters where
  RunbookCreateOrUpdateProperties : Option RunbookCreateOrUpdateProperties
  Name : Option String
  Location : Option String
  Tags : Tags

/-- Type `automation.ScheduleProperties` (embedded by pointer in `Schedule`). -/
structure ScheduleProperties where
  StartTime : Option String
  ExpiryTime : Option String
  Interval : Option GoMap
  Frequency : String
  Description : Option String

/-- Type `automation.Schedule`. -/
structure Schedule where
  Response : AutorestResponse
  ID : Option String
  Name : Option String
  ScheduleProperties : Option ScheduleProperties

/-- Type `automation.ScheduleCreateOrUpdateProperties`. -/
structure ScheduleCreateOrUpdateProperties where
  Description : Option String
  StartTime : Option String
  ExpiryTime : Option String
  Interval : Option GoMap
  Frequency : String

/-- Type `automation.ScheduleCreateOrUpdateParameters`. -/
structure ScheduleCreateOrUpdateParameters where
  Name : Option String
  ScheduleCreateOrUpdateProperties : Option ScheduleCreateOrUpdateProperties

/-! ## The remote service, the log and the helpers -/

/-- What a handler does that is visible from outside, in order. -/
inductive Event where
  | printf (line : String)
  | enter (handler : String)
  | accountCreateOrUpdate (resGroup name : String) (p : AccountCreateOrUpdateParameters)
  | accountGet (resGroup name : String)
  | accountDelete (resGroup name : String)
  | runbookCreateOrUpdate (resGroup accName name : String)
      (p : RunbookCreateOrUpdateParameters)
  | runbookGet (resGroup accName name : String)
  | runbookDelete (resGroup accName name : String)
  | scheduleCreateOrUpdate (resGroup accName name : String)
      (p : ScheduleCreateOrUpdateParameters)
  | scheduleGet (resGroup accName name : String)
  | scheduleDelete (resGroup accName name : String)

/-- Client `automationAccountClient`: each call reads and changes the remote state `σ`
and answers with a response and a Go `error`. -/
structure AccountClient (σ : Type) where
  CreateOrUpdate : σ → String → String → AccountCreateOrUpdateParameters →
    σ × Account × Option GoError
  Get : σ → String → String → σ × Account × Option GoError
  Delete : σ → String → String → σ × AutorestResponse × Option GoError

/-- Client `automationRunbookClient`. -/
structure RunbookClient (σ : Type) where
  CreateOrUpdate : σ → String → String → String → RunbookCreateOrUpdateParameters →
    σ × Runbook × Option GoError
  Get : σ → String → String → String → σ × Runbook × Option GoError
  Delete : σ → String → String → String → σ × AutorestResponse × Option GoError

/-- Client `automationScheduleClient`. -/
structure ScheduleClient (σ : Type) where
  CreateOrUpdate : σ → String → String → String → ScheduleCreateOrUpdateParameters →
    σ × Schedule × Option GoError
  Get : σ → String → String → String → σ × Schedule × Option GoError
  Delete : σ → String → String → String → σ × AutorestResponse × Option GoError

/-- Type `ArmClient`, the provider handle the handlers receive. -/
structure ArmClient (σ : Type) where
  automationAccountClient : AccountClient σ
  automationRunbookClient : RunbookClient σ
  automationScheduleClient : ScheduleClient σ

/-- Type `ResourceID`, the result of `parseAzureResourceID`. -/
structure ResourceID where
  ResourceGroup : String
  Path : List (String × String)

/-- Functions the handlers call whose source is outside the development. -/
structure Helpers where
  parseAzureResourceID : String → Except GoError ResourceID
  responseWasNotFound : AutorestResponse → Bool
  azureRMNormalizeLocation : String → String
  expandTags : GoMap → Tags
  flattenAndSetTags : ResourceData → Tags → ResourceData
  hashcodeString : String → Int

/-- State of the remote service and the log of the run so far. -/
structure World (σ : Type) where
  remote : σ
  log : List Event

/-- Appends an event to the log. -/
def World.record {σ : Type} (w : World σ) (e : Event) : World σ :=
  { w with log := w.log ++ [e] }

/-- The world after a remote call: the new remote state, the call logged. -/
def World.after {σ : Type} (w : World σ) (e : Event) (remote : σ) : World σ :=
  { remote := remote, log := w.log ++ [e] }

/-- How a handler run ends. -/
inductive Run (σ : Type) where
  | returned (d : ResourceData) (w : World σ) (err : Option GoError)
  | panicked (w : World σ) (p : Panic)

/-- The world a run ends in. -/
def Run.world {σ : Type} : Run σ → World σ
  | .returned _ w _ => w
  | .panicked w _ => w

/-- The local state a run returned with (none after a panic). -/
def Run.data {σ : Type} : Run σ → Option ResourceData
  | .returned d _ _ => some d
  | .panicked _ _ => none

/-! ## Account: `resource_arm_automation_account.go` -/

/-- Modelled from the spec: `tagsSchema()` is a function of the package whose source is
not part of the development. The spec gives `tags` as a mapping from string to string
that is not required and is mutable in place: a map field, neither required nor
force-new. -/
def tagsSchema : Schema :=
  { Typ := .TypeMap, Required := false, ForceNew := false }

/-- Function `resourceArmAutomationAccount`: the declared schema (the handlers it names
are the four functions below). `automation.Free` and `automation.Basic` are the strings
"Free" and "Basic". -/
def resourceArmAutomationAccount : List (String × Schema) :=
  [ ("name", { Typ := .TypeString, Required := true, ForceNew := true }),
    ("location", { Typ := .TypeString, Required := true, ForceNew := true,
                   StateFunc := some "azureRMNormalizeLocation" }),
    ("resource_group_name", { Typ := .TypeString, Required := true, ForceNew := true }),
    ("sku", { Typ := .TypeSet, Required := true, MaxItems := 1,
              Elem := [("name", { Typ := .TypeString, Required := true,
                                  DiffSuppressFunc := some "ignoreCaseDiffSuppressFunc",
                                  ValidateFunc := some (["Free", "Basic"], true) })],
              Set := some "resourceAzureRMAutomationAccountSkuHash" }),
    ("tags", tagsSchema) ]

/-- Function `resourceAzureRMAutomationAccountSkuHash`. -/
def resourceAzureRMAutomationAccountSkuHash (h : Helpers) (v : Value) : Except Panic Int := do
  let m ← v.asMap
  let name ← (GoMap.index m "name").asString
  pure (h.hashcodeString name)

/-- Function `flattenAndSetSku`. -/
def flattenAndSetSku (h : Helpers) (d : ResourceData) (sku : Option Sku) :
    Except Panic ResourceData := do
  let results : SchemaSet := []
  let result : GoMap := []
  let sku ← deref sku
  let result := GoMap.assign result "name" (.str sku.Name)
  let results ← SchemaSet.Add (resourceAzureRMAutomationAccountSkuHash h) results (.map result)
  pure (d.Set "sku" (.set results))

/-- Function `expandSku`. -/
def expandSku (d : ResourceData) : Except Panic Sku := do
  let inputs := SchemaSet.List (← (d.Get "sku").asSet)
  let input ← (← sliceIndex inputs 0).asMap
  let name ← (GoMap.index input "name").asString
  let sku : Sku := { Name := name }
  pure sku

/-- Lines 80-95 of `resourceArmAutomationAccountCreateUpdate`: the arguments of the
remote call (resource group, name, parameters). -/
def accountCreateUpdateArguments (h : Helpers) (d : ResourceData) :
    Except Panic (String × String × AccountCreateOrUpdateParameters) := do
  let name ← (d.Get "name").asString
  let location ← (d.Get "location").asString
  let resGroup ← (d.Get "resource_group_name").asString
  let tags ← (d.Get "tags").asMap
  let sku ← expandSku d
  let parameters : AccountCreateOrUpdateParameters :=
    { AccountCreateOrUpdateProperties := some { Sku := some sku }
      Name := some name
      Location := some location
      Tags := h.expandTags tags }
  pure (resGroup, name, parameters)

/-- Function `resourceArmAutomationAccountRead`. -/
def resourceArmAutomationAccountRead {σ : Type} (h : Helpers) (armClient : ArmClient σ)
    (d : ResourceData) (w : World σ) : Run σ :=
  let client := armClient.automationAccountClient
  let w := w.record (.enter "resourceArmAutomationAccountRead")
  match h.parseAzureResourceID d.Id with
  | .error err => .returned d w (some err)
  | .ok id =>
    let resGroup := id.ResourceGroup
    let name := stringMapIndex id.Path "automationAccounts"
    match client.Get w.remote resGroup name with
    | (remote, resp, err) =>
      let w := w.after (.accountGet resGroup name) remote
      match err with
      | some err =>
        if h.responseWasNotFound resp.Response then
          .returned (d.SetId "") w none
        else
          .returned d w (some ⟨"Error making Read request on AzureRM Automation Account '"
            ++ name ++ "': " ++ err.msg⟩)
      | none =>
        let flattened : Except Panic ResourceData := do
          let d := d.Set "name" (Value.ofStringPtr resp.Name)
          let location ← deref resp.Location
          let d := d.Set "location" (.str (h.azureRMNormalizeLocation location))
          let d := d.Set "resource_group_name" (.str resGroup)
          let properties ← deref resp.AccountProperties
          let d ← flattenAndSetSku h d properties.Sku
          pure (h.flattenAndSetTags d resp.Tags)
        match flattened with
        | .error p => .panicked w p
        | .ok d => .returned d w none

/-- Function `resourceArmAutomationAccountCreateUpdate`. -/
def resourceArmAutomationAccountCreateUpdate {σ : Type} (h : Helpers)
    (armClient : ArmClient σ) (d : ResourceData) (w : World σ) : Run σ :=
  let client := armClient.automationAccountClient
  let w := w.record (.enter "resourceArmAutomationAccountCreateUpdate")
  let w := w.record
    (.printf "[INFO] preparing arguments for AzureRM Automation Account creation.")
  match accountCreateUpdateArguments h d with
  | .error p => .panicked w p
  | .ok (resGroup, name, parameters) =>
    match client.CreateOrUpdate w.remote resGroup name parameters with
    | (remote, _, err) =>
      let w := w.after (.accountCreateOrUpdate resGroup name parameters) remote
      match err with
      | some err => .returned d w (some err)
      | none =>
        match client.Get w.remote resGroup name with
        | (remote, read, err) =>
          let w := w.after (.accountGet resGroup name) remote
          match err with
          | some err => .returned d w (some err)
          | none =>
            match read.ID with
            | none =>
              .returned d w (some ⟨"Cannot read Automation Account '" ++ name
                ++ "' (resource group " ++ resGroup ++ ") ID"⟩)
            | some id => resourceArmAutomationAccountRead h armClient (d.SetId id) w

/-- Function `resourceArmAutomationAccountDelete`. -/
def resourceArmAutomationAccountDelete {σ : Type} (h : Helpers) (armClient : ArmClient σ)
    (d : ResourceData) (w : World σ) : Run σ :=
  let client := armClient.automationAccountClient
  let w := w.record (.enter "resourceArmAutomationAccountDelete")
  match h.parseAzureResourceID d.Id with
  | .error err => .returned d w (some err)
  | .ok id =>
    let resGroup := id.ResourceGroup
    let name := stringMapIndex id.Path "automationAccounts"
    match client.Delete w.remote resGroup name with
    | (remote, resp, err) =>
      let w := w.after (.accountDelete resGroup name) remote
      match err with
      | some err =>
        match resp.StatusCode with
        | .error p => .panicked w p
        | .ok status =>
          if status = StatusNotFound then
            .returned d w none
          else
            .returned d w (some ⟨"Error issuing AzureRM delete request for Automation Account '"
              ++ name ++ "': " ++ err.msg⟩)
      | none => .returned d w none

/-! ## Runbook: `resource_arm_automation_runbook.go` -/

/-- Function `resourceArmAutomationRunbook`: the declared schema. The `automation`
runbook-type constants are the strings of their names. -/
def resourceArmAutomationRunbook : List (String × Schema) :=
  [ ("name", { Typ := .TypeString, Required := true, ForceNew := true }),
    ("account_name", { Typ := .TypeString, Required := true, ForceNew := true }),
    ("location", { Typ := .TypeString, Required := true, ForceNew := true,
                   StateFunc := some "azureRMNormalizeLocation" }),
    ("resource_group_name", { Typ := .TypeString, Required := true, ForceNew := true }),
    ("runbookType", { Typ := .TypeString, Required := true, ForceNew := true,
                      DiffSuppressFunc := some "ignoreCaseDiffSuppressFunc",
                      ValidateFunc := some (["Graph", "GraphPowerShell",
                        "GraphPowerShellWorkflow", "PowerShell", "PowerShellWorkflow",
                        "Script"], true) }),
    ("logProgress", { Typ := .TypeBool, Required := true }),
    ("logVerbose", { Typ := .TypeBool, Required := true }),
    ("description", { Typ := .TypeString, Required := true, ForceNew := true }),
    ("publishContentLink",
      { Typ := .TypeSet, Required := true, MaxItems := 1,
        Elem := [("uri", { Typ := .TypeString, Required := true })],
        Set := some "resourceAzureRMAutomationRunbookContentLinkHash" }),
    ("tags", tagsSchema) ]

/-- Function `resourceAzureRMAutomationRunbookContentLinkHash`. -/
def resourceAzureRMAutomationRunbookContentLinkHash (h : Helpers) (v : Value) :
    Except Panic Int := do
  let m ← v.asMap
  let uri ← (GoMap.index m "uri").asString
  pure (h.hashcodeString uri)

/-- Function `flattenAndSetContentLink`. The block entry is `&contentLink.URI`, the
address of the `*string` field: a pointer to a pointer. -/
def flattenAndSetContentLink (h : Helpers) (d : ResourceData)
    (contentLink : Option ContentLink) : Except Panic ResourceData := do
  let results : SchemaSet := []
  let result : GoMap := []
  let contentLink ← deref contentLink
  let result := GoMap.assign result "uri" (.ptr (Value.ofStringPtr contentLink.URI))
  let results ←
    SchemaSet.Add (resourceAzureRMAutomationRunbookContentLinkHash h) results (.map result)
  pure (d.Set "publishContentLink" (.set results))

/-- Function `expandContentLink`. -/
def expandContentLink (d : ResourceData) : Except Panic ContentLink := do
  let inputs := SchemaSet.List (← (d.Get "publishContentLink").asSet)
  let input ← (← sliceIndex inputs 0).asMap
  let uri ← (GoMap.index input "uri").asString
  let contentLink : ContentLink := { URI := some uri }
  pure contentLink

/-- Lines 112-137 of `resourceArmAutomationRunbookCreateUpdate`: the arguments of the
remote call (resource group, account name, name, parameters). -/
def runbookCreateUpdateArguments (h : Helpers) (d : ResourceData) :
    Except Panic (String × String × String × RunbookCreateOrUpdateParameters) := do
  let name ← (d.Get "name").asString
  let location ← (d.Get "location").asString
  let resGroup ← (d.Get "resource_group_name").asString
  let tags ← (d.Get "tags").asMap
  let accName ← (d.Get "account_name").asString
  let runbookType ← (d.Get "runbookType").asString
  let logProgress ← (d.Get "logProgress").asBool
  let logVerbose ← (d.Get "logVerbose").asBool
  let description ← (d.Get "description").asString
  let contentLink ← expandContentLink d
  let parameters : RunbookCreateOrUpdateParameters :=
    { RunbookCreateOrUpdateProperties := some
        { LogVerbose := some logVerbose
          LogProgress := some logProgress
          RunbookType := runbookType
          Description := some description
          PublishContentLink := some contentLink }
      Name := some name
      Location := some location
      Tags := h.expandTags tags }
  pure (resGroup, accName, name, parameters)

/-- Function `resourceArmAutomationRunbookRead`. -/
def resourceArmAutomationRunbookRead {σ : Type} (h : Helpers) (armClient : ArmClient σ)
    (d : ResourceData) (w : World σ) : Run σ :=
  let client := armClient.automationRunbookClient
  let w := w.record (.enter "resourceArmAutomationRunbookRead")
  match h.parseAzureResourceID d.Id with
  | .error err => .returned d w (some err)
  | .ok id =>
    let resGroup := id.ResourceGroup
    let accName := stringMapIndex id.Path "automationAccounts"
    let name := stringMapIndex id.Path "runbooks"
    match client.Get w.remote resGroup accName name with
    | (remote, resp, err) =>
      let w := w.after (.runbookGet resGroup accName name) remote
      match err with
      | some err =>
        if h.responseWasNotFound resp.Response then
          .returned (d.SetId "") w none
        else
          .returned d w (some ⟨"Error making Read request on AzureRM Automation Runbook '"
            ++ name ++ "': " ++ err.msg⟩)
      | none =>
        let flattened : Except Panic ResourceData := do
          let d := d.Set "name" (Value.ofStringPtr resp.Name)
          let location ← deref resp.Location
          let d := d.Set "location" (.str (h.azureRMNormalizeLocation location))
          let d := d.Set "resource_group_name" (.str resGroup)
          let d := d.Set "account_name" (.str accName)
          let properties ← deref resp.RunbookProperties
          let d := d.Set "logVerbose" (Value.ofBoolPtr properties.LogVerbose)
          let d := d.Set "logProgress" (Value.ofBoolPtr properties.LogProgress)
          let d := d.Set "runbookType" (.str properties.RunbookType)
          let d := d.Set "description" (Value.ofStringPtr properties.Description)
          let d ← flattenAndSetContentLink h d properties.PublishContentLink
          pure (h.flattenAndSetTags d resp.Tags)
        match flattened with
        | .error p => .panicked w p
        | .ok d => .returned d w none

/-- Function `resourceArmAutomationRunbookCreateUpdate`. -/
def resourceArmAutomationRunbookCreateUpdate {σ : Type} (h : Helpers)
    (armClient : ArmClient σ) (d : ResourceData) (w : World σ) : Run σ :=
  let client := armClient.automationRunbookClient
  let w := w.record (.enter "resourceArmAutomationRunbookCreateUpdate")
  let w := w.record
    (.printf "[INFO] preparing arguments for AzureRM Automation Runbook creation.")
  match runbookCreateUpdateArguments h d with
  | .error p => .panicked w p
  | .ok (resGroup, accName, name, parameters) =>
    match client.CreateOrUpdate w.remote resGroup accName name parameters with
    | (remote, _, err) =>
      let w := w.after (.runbookCreateOrUpdate resGroup accName name parameters) remote
      match err with
      | some err => .returned d w (some err)
      | none =>
        match client.Get w.remote resGroup accName name with
        | (remote, read, err) =>
          let w := w.after (.runbookGet resGroup accName name) remote
          match err with
          | some err => .returned d w (some err)
          | none =>
            match read.ID with
            | none =>
              .returned d w (some ⟨"Cannot read Automation Runbook '" ++ name
                ++ "' (resource group " ++ resGroup ++ ") ID"⟩)
            | some id => resourceArmAutomationRunbookRead h armClient (d.SetId id) w

/-- Function `resourceArmAutomationRunbookDelete`. -/
def resourceArmAutomationRunbookDelete {σ : Type} (h : Helpers) (armClient : ArmClient σ)
    (d : ResourceData) (w : World σ) : Run σ :=
  let client := armClient.automationRunbookClient
  let w := w.record (.enter "resourceArmAutomationRunbookDelete")
  match h.parseAzureResourceID d.Id with
  | .error err => .returned d w (some err)
  | .ok id =>
    let resGroup := id.ResourceGroup
    let accName := stringMapIndex id.Path "automationAccounts"
    let name := stringMapIndex id.Path "automationAccounts"
    match client.Delete w.remote resGroup accName name with
    | (remote, resp, err) =>
      let w := w.after (.runbookDelete resGroup accName name) remote
      match err with
      | some err =>
        match resp.StatusCode with
        | .error p => .panicked w p
        | .ok status =>
          if status = StatusNotFound then
            .returned d w none
          else
            .returned d w (some ⟨"Error issuing AzureRM delete request for Automation Runbook '"
              ++ name ++ "': " ++ err.msg⟩)
      | none => .returned d w none

/-! ## Schedule: `resource_arm_automation_schedule.go` -/

/-- Function `resourceArmAutomationSchedule`: the declared schema. The `automation`
frequency constants are the strings of their names. -/
def resourceArmAutomationSchedule : List (String × Schema) :=
  [ ("name", { Typ := .TypeString, Required := true, ForceNew := true }),
    ("account_name", { Typ := .TypeString, Required := true, ForceNew := true }),
    ("description", { Typ := .TypeString, Required := false }),
    ("resource_group_name", { Typ := .TypeString, Required := true, ForceNew := true }),
    ("start_time", { Typ := .TypeString, Required := false }),
    ("expiry_time", { Typ := .TypeString, Required := false }),
    ("interval", { Typ := .TypeInt, Required := true }),
    ("frequency", { Typ := .TypeString, Required := true,
                    DiffSuppressFunc := some "ignoreCaseDiffSuppressFunc",
                    ValidateFunc := some (["Day", "Hour", "Month", "OneTime", "Week"],
                      true) }) ]

/-- Lines 81-100 of `resourceArmAutomationScheduleCreateUpdate`: the arguments of the
remote call (resource group, account name, name, parameters). The composite literal
names `Description`, `Interval` and `Frequency`; the other properties keep their zero
value. -/
def scheduleCreateUpdateArguments (d : ResourceData) :
    Except Panic (String × String × String × ScheduleCreateOrUpdateParameters) := do
  let name ← (d.Get "name").asString
  let resGroup ← (d.Get "resource_group_name").asString
  let accName ← (d.Get "account_name").asString
  let freqstr ← (d.Get "frequency").asString
  let freq := freqstr
  let interval : GoMap := []
  let interval := GoMap.assign interval freqstr (d.Get "interval")
  let description ← (d.Get "description").asString
  let parameters : ScheduleCreateOrUpdateParameters :=
    { Name := some name
      ScheduleCreateOrUpdateProperties := some
        { Description := some description
          StartTime := none
          ExpiryTime := none
          Interval := some interval
          Frequency := freq } }
  pure (resGroup, accName, name, parameters)

/-- Function `resourceArmAutomationScheduleRead`. -/
def resourceArmAutomationScheduleRead {σ : Type} (h : Helpers) (armClient : ArmClient σ)
    (d : ResourceData) (w : World σ) : Run σ :=
  let client := armClient.automationScheduleClient
  let w := w.record (.enter "resourceArmAutomationScheduleRead")
  match h.parseAzureResourceID d.Id with
  | .error err => .returned d w (some err)
  | .ok id =>
    let resGroup := id.ResourceGroup
    let accName := stringMapIndex id.Path "automationAccounts"
    let name := stringMapIndex id.Path "schedules"
    match client.Get w.remote resGroup accName name with
    | (remote, resp, err) =>
      let w := w.after (.scheduleGet resGroup accName name) remote
      match err with
      | some err =>
        if h.responseWasNotFound resp.Response then
          .returned (d.SetId "") w none
        else
          .returned d w (some ⟨"Error making Read request on AzureRM Automation Schedule '"
            ++ name ++ "': " ++ err.msg⟩)
      | none =>
        let flattened : Except Panic ResourceData := do
          let d := d.Set "name" (Value.ofStringPtr resp.Name)
          let d := d.Set "resource_group_name" (.str resGroup)
          let d := d.Set "account_name" (.str accName)
          let properties ← deref resp.ScheduleProperties
          let d := d.Set "frequency" (.str properties.Frequency)
          let d := d.Set "interval" (Value.ofMapPtr properties.Interval)
          let d := d.Set "description" (Value.ofStringPtr properties.Description)
          pure d
        match flattened with
        | .error p => .panicked w p
        | .ok d => .returned d w none

/-- Function `resourceArmAutomationScheduleCreateUpdate`. -/
def resourceArmAutomationScheduleCreateUpdate {σ : Type} (h : Helpers)
    (armClient : ArmClient σ) (d : ResourceData) (w : World σ) : Run σ :=
  let client := armClient.automationScheduleClient
  let w := w.record (.enter "resourceArmAutomationScheduleCreateUpdate")
  let w := w.record
    (.printf "[INFO] preparing arguments for AzureRM Automation Schedule creation.")
  match scheduleCreateUpdateArguments d with
  | .error p => .panicked w p
  | .ok (resGroup, accName, name, parameters) =>
    match client.CreateOrUpdate w.remote resGroup accName name parameters with
    | (remote, _, err) =>
      let w := w.after (.scheduleCreateOrUpdate resGroup accName name parameters) remote
      match err with
      | some err => .returned d w (some err)
      | none =>
        match client.Get w.remote resGroup accName name with
        | (remote, read, err) =>
          let w := w.after (.scheduleGet resGroup accName name) remote
          match err with
          | some err => .returned d w (some err)
          | none =>
            match read.ID with
            | none =>
              .returned d w (some ⟨"Cannot read Automation Schedule '" ++ name
                ++ "' (resource group " ++ resGroup ++ ") ID"⟩)
            | some id => resourceArmAutomationScheduleRead h armClient (d.SetId id) w

/-- Function `resourceArmAutomationScheduleDelete`. -/
def resourceArmAutomationScheduleDelete {σ : Type} (h : Helpers) (armClient : ArmClient σ)
    (d : ResourceData) (w : World σ) : Run σ :=
  let client := armClient.automationScheduleClient
  let w := w.record (.enter "resourceArmAutomationScheduleDelete")
  match h.parseAzureResourceID d.Id with
  | .error err => .returned d w (some err)
  | .ok id =>
    let resGroup := id.ResourceGroup
    let accName := stringMapIndex id.Path "automationAccounts"
    let name := stringMapIndex id.Path "schedules"
    match client.Delete w.remote resGroup accName name with
    | (remote, resp, err) =>
      let w := w.after (.scheduleDelete resGroup accName name) remote
      match err with
      | some err =>
        match resp.StatusCode with
        | .error p => .panicked w p
        | .ok status =>
          if status = StatusNotFound then
            .returned d w none
          else
            .returned d w (some ⟨"Error issuing AzureRM delete request for Automation Schedule '"
              ++ name ++ "': " ++ err.msg⟩)
      | none => .returned d w none

/-! ## Sample environment

A small remote service and a set of helpers on which the theorems are exercised. -/

/-- Identity of the sample account. -/
def sampleAccountId : String :=
  "/subscriptions/S/resourceGroups/RG/providers/Microsoft.Automation/automationAccounts/acct1"

/-- Identity of the sample runbook. -/
def sampleRunbookId : String :=
  sampleAccountId ++ "/runbooks/rb1"

/-- Identity of the sample schedule. -/
def sampleScheduleId : String :=
  sampleAccountId ++ "/schedules/sch1"

/-- Sample helpers: the parser knows the three sample identities, a response is
not-found when it carries status 404. -/
def sampleHelpers : Helpers where
  parseAzureResourceID := fun id =>
    if id = sampleAccountId then
      .ok { ResourceGroup := "RG", Path := [("automationAccounts", "acct1")] }
    else if id = sampleRunbookId then
      .ok { ResourceGroup := "RG",
            Path := [("automationAccounts", "acct1"), ("runbooks", "rb1")] }
    else if id = sampleScheduleId then
      .ok { ResourceGroup := "RG",
            Path := [("automationAccounts", "acct1"), ("schedules", "sch1")] }
    else .error { msg := "Cannot parse Azure Id" }
  responseWasNotFound := fun r =>
    match r.Response with
    | some http => http.StatusCode == StatusNotFound
    | none => false
  azureRMNormalizeLocation := fun s => s
  expandTags := fun _ => some []
  flattenAndSetTags := fun d _ => d.Set "tags" (.map [])
  hashcodeString := fun s => s.length

/-- Response with the given status. -/
def httpStatus (code : Nat) : AutorestResponse :=
  { Response := some { StatusCode := code } }

/-- The sample remote service keeps the addresses (resource group, account, name) of
the resources that exist. `issueId` tells whether a `Get` answers with an identity. -/
abbrev SampleRemote := List (List String)

/-- Sample account, as the remote answers a `Get` with. -/
def sampleAccount (issueId : Bool) (found : Bool) : Account :=
  { Response := httpStatus (if found then 200 else 404)
    ID := if issueId && found then some sampleAccountId else none
    Name := if found then some "acct1" else none
    Location := if found then some "westus" else none
    Tags := none
    AccountProperties := if found then some { Sku := some { Name := "Basic" } } else none }

/-- Sample runbook, as the remote answers a `Get` with. -/
def sampleRunbook (issueId : Bool) (found : Bool) : Runbook :=
  { Response := httpStatus (if found then 200 else 404)
    ID := if issueId && found then some sampleRunbookId else none
    Name := if found then some "rb1" else none
    Location := if found then some "westus" else none
    Tags := none
    RunbookProperties :=
      if found then
        some { RunbookType := "Script",
               PublishContentLink := some { URI := some "https://host/rb1.ps1" },
               LogVerbose := some true, LogProgress := some true,
               Description := some "sample" }
      else none }

/-- Sample schedule, as the remote answers a `Get` with. -/
def sampleSchedule (issueId : Bool) (found : Bool) : Schedule :=
  { Response := httpStatus (if found then 200 else 404)
    ID := if issueId && found then some sampleScheduleId else none
    Name := if found then some "sch1" else none
    ScheduleProperties :=
      if found then
        some { StartTime := none, ExpiryTime := none, Interval := some [("Week", .int 2)],
               Frequency := "Week", Description := some "sample" }
      else none }

/-- Outcome of a sample `Delete`: removes the address; not-found with an error when
the address is not there. -/
def sampleDelete (s : SampleRemote) (address : List String) :
    SampleRemote × AutorestResponse × Option GoError :=
  if s.contains address then (s.erase address, httpStatus 200, none)
  else (s, httpStatus 404, some { msg := "ResourceNotFound" })

/-- Sample provider client over `SampleRemote`. -/
def sampleArmClient (issueId : Bool) : ArmClient SampleRemote where
  automationAccountClient :=
    { CreateOrUpdate := fun s rg name _ =>
        (if s.contains [rg, name] then s else s ++ [[rg, name]], sampleAccount true true, none)
      Get := fun s rg name =>
        if s.contains [rg, name] then (s, sampleAccount issueId true, none)
        else (s, sampleAccount issueId false, some { msg := "ResourceNotFound" })
      Delete := fun s rg name => sampleDelete s [rg, name] }
  automationRunbookClient :=
    { CreateOrUpdate := fun s rg acc name _ =>
        (if s.contains [rg, acc, name] then s else s ++ [[rg, acc, name]],
          sampleRunbook true true, none)
      Get := fun s rg acc name =>
        if s.contains [rg, acc, name] then (s, sampleRunbook issueId true, none)
        else (s, sampleRunbook issueId false, some { msg := "ResourceNotFound" })
      Delete := fun s rg acc name => sampleDelete s [rg, acc, name] }
  automationScheduleClient :=
    { CreateOrUpdate := fun s rg acc name _ =>
        (if s.contains [rg, acc, name] then s else s ++ [[rg, acc, name]],
          sampleSchedule true true, none)
      Get := fun s rg acc name =>
        if s.contains [rg, acc, name] then (s, sampleSchedule issueId true, none)
        else (s, sampleSchedule issueId false, some { msg := "ResourceNotFound" })
      Delete := fun s rg acc name => sampleDelete s [rg, acc, name] }

/-- Local state of the sample account, as declared: name `acct1` in `westus`, resource
group `RG`, one `sku` block `Basic`. -/
def sampleAccountData (id : String) : ResourceData :=
  { schema := resourceArmAutomationAccount
    id := id
    fields := [("name", .str "acct1"), ("location", .str "westus"),
               ("resource_group_name", .str "RG"),
               ("sku", .set [(5, .map [("name", .str "Basic")])]),
               ("tags", .map [])] }

/-- Local state of the sample runbook, as declared. -/
def sampleRunbookData (id : String) : ResourceData :=
  { schema := resourceArmAutomationRunbook
    id := id
    fields := [("name", .str "rb1"), ("account_name", .str "acct1"),
               ("location", .str "westus"), ("resource_group_name", .str "RG"),
               ("runbookType", .str "Script"), ("logProgress", .bool true),
               ("logVerbose", .bool true), ("description", .str "sample"),
               ("publishContentLink", .set [(20, .map [("uri", .str "https://host/rb1.ps1")])]),
               ("tags", .map [])] }

/-- Local state of the sample schedule, as declared: every second week. -/
def sampleScheduleData (id : String) : ResourceData :=
  { schema := resourceArmAutomationSchedule
    id := id
    fields := [("name", .str "sch1"), ("account_name", .str "acct1"),
               ("resource_group_name", .str "RG"), ("description", .str "sample"),
               ("frequency", .str "Week"), ("interval", .int 2)] }

/-- The `Interval` mapping in the payload the Schedule handler builds for `d`. -/
def schedulePayloadInterval (d : ResourceData) : Option GoMap :=
  match scheduleCreateUpdateArguments d with
  | .ok (_, _, _, parameters) =>
    match parameters.ScheduleCreateOrUpdateProperties with
    | some properties => properties.Interval
    | none => none
  | .error _ => none

/-- Local state right after an import: the schema and the identity, no field yet. -/
def importedData (schema : List (String × Schema)) (id : String) : ResourceData :=
  { schema := schema, id := id, fields := [] }

/-- The sample account declared without any `sku` block. -/
def sampleAccountDataNoSku : ResourceData :=
  { schema := resourceArmAutomationAccount
    id := ""
    fields := [("name", .str "acct1"), ("location", .str "westus"),
               ("resource_group_name", .str "RG"), ("sku", .set []), ("tags", .map [])] }

/-- The sample runbook declared without any `publishContentLink` block. -/
def sampleRunbookDataNoLink : ResourceData :=
  { schema := resourceArmAutomationRunbook
    id := ""
    fields := [("name", .str "rb1"), ("account_name", .str "acct1"),
               ("location", .str "westus"), ("resource_group_name", .str "RG"),
               ("runbookType", .str "Script"), ("logProgress", .bool true),
               ("logVerbose", .bool true), ("description", .str "sample"),
               ("publishContentLink", .set []), ("tags", .map [])] }

/-- A provider client whose remote is out of order: every `Get` answers status 500 with
an error, every `Delete` likewise, and `CreateOrUpdate` does so when `failCreate` (it
stores the address otherwise). -/
def failingArmClient (failCreate : Bool) : ArmClient SampleRemote where
  automationAccountClient :=
    { CreateOrUpdate := fun s rg name _ =>
        if failCreate then
          (s, { sampleAccount false false with Response := httpStatus 500 },
            some { msg := "InternalServerError" })
        else (s ++ [[rg, name]], sampleAccount true true, none)
      Get := fun s _ _ =>
        (s, { sampleAccount false false with Response := httpStatus 500 },
          some { msg := "InternalServerError" })
      Delete := fun s _ _ => (s, httpStatus 500, some { msg := "InternalServerError" }) }
  automationRunbookClient :=
    { CreateOrUpdate := fun s rg acc name _ =>
        if failCreate then
          (s, { sampleRunbook false false with Response := httpStatus 500 },
            some { msg := "InternalServerError" })
        else (s ++ [[rg, acc, name]], sampleRunbook true true, none)
      Get := fun s _ _ _ =>
        (s, { sampleRunbook false false with Response := httpStatus 500 },
          some { msg := "InternalServerError" })
      Delete := fun s _ _ _ => (s, httpStatus 500, some { msg := "InternalServerError" }) }
  automationScheduleClient :=
    { CreateOrUpdate := fun s rg acc name _ =>
        if failCreate then
          (s, { sampleSchedule false false with Response := httpStatus 500 },
            some { msg := "InternalServerError" })
        else (s ++ [[rg, acc, name]], sampleSchedule true true, none)
      Get := fun s _ _ _ =>
        (s, { sampleSchedule false false with Response := httpStatus 500 },
          some { msg := "InternalServerError" })
      Delete := fun s _ _ _ => (s, httpStatus 500, some { msg := "InternalServerError" }) }

/-- The declaration of a field in a resource schema (`Schema[key]`). -/
def schemaField (schema : List (String × Schema)) (key : String) : Option Schema :=
  (schema.find? (fun e => e.1 == key)).map Prod.snd

/-- The echo remote stores the schedule payload it was sent last, under its address
(resource group, account name, name). -/
abbrev EchoRemote := Option ((String × String × String) × ScheduleCreateOrUpdateParameters)

/-- Identity the echo remote issues for a schedule. -/
def echoScheduleId (resGroup accName name : String) : String :=
  "/subscriptions/S/resourceGroups/" ++ resGroup
    ++ "/providers/Microsoft.Automation/automationAccounts/" ++ accName
    ++ "/schedules/" ++ name

/-- The schedule the echo remote answers with: the identity and, field by field, the
payload it stored. -/
def echoSchedule (resGroup accName name : String) (p : ScheduleCreateOrUpdateParameters) :
    Schedule :=
  { Response := httpStatus 200
    ID := some (echoScheduleId resGroup accName name)
    Name := p.Name
    ScheduleProperties := p.ScheduleCreateOrUpdateProperties.map fun q =>
      { StartTime := q.StartTime, ExpiryTime := q.ExpiryTime, Interval := q.Interval,
        Frequency := q.Frequency, Description := q.Description } }

/-- A provider client over the echo remote: the schedule client stores the payload on
`CreateOrUpdate` and returns it on `Get`; the account and runbook clients know no
resource. -/
def echoArmClient : ArmClient EchoRemote where
  automationAccountClient :=
    { CreateOrUpdate := fun s _ _ _ =>
        (s, sampleAccount false false, some { msg := "ResourceNotFound" })
      Get := fun s _ _ => (s, sampleAccount false false, some { msg := "ResourceNotFound" })
      Delete := fun s _ _ => (s, httpStatus 404, some { msg := "ResourceNotFound" }) }
  automationRunbookClient :=
    { CreateOrUpdate := fun s _ _ _ _ =>
        (s, sampleRunbook false false, some { msg := "ResourceNotFound" })
      Get := fun s _ _ _ => (s, sampleRunbook false false, some { msg := "ResourceNotFound" })
      Delete := fun s _ _ _ => (s, httpStatus 404, some { msg := "ResourceNotFound" }) }
  automationScheduleClient :=
    { CreateOrUpdate := fun _ rg acc name p =>
        (some ((rg, acc, name), p), echoSchedule rg acc name p, none)
      Get := fun s rg acc name =>
        match s with
        | some (address, p) =>
          if address = (rg, acc, name) then (s, echoSchedule rg acc name p, none)
          else (s, sampleSchedule false false, some { msg := "ResourceNotFound" })
        | none => (s, sampleSchedule false false, some { msg := "ResourceNotFound" })
      Delete := fun s rg acc name =>
        match s with
        | some (address, _) =>
          if address = (rg, acc, name) then (none, httpStatus 200, none)
          else (s, httpStatus 404, some { msg := "ResourceNotFound" })
        | none => (s, httpStatus 404, some { msg := "ResourceNotFound" }) }

/-- The sample schedule declared with a start and an expiry time. -/
def sampleScheduleDataTimed : ResourceData :=
  { schema := resourceArmAutomationSchedule
    id := ""
    fields := [("name", .str "sch1"), ("account_name", .str "acct1"),
               ("resource_group_name", .str "RG"), ("description", .str "sample"),
               ("start_time", .str "2017-06-01T00:00:00Z"),
               ("expiry_time", .str "2018-06-01T00:00:00Z"),
               ("frequency", .str "Week"), ("interval", .int 2)] }

/-- The payload of the sample schedule as it would be with its times in it. -/
def sampleSchedulePayloadTimed : ScheduleCreateOrUpdateParameters :=
  { Name := some "sch1"
    ScheduleCreateOrUpdateProperties := some
      { Description := some "sample"
        StartTime := some "2017-06-01T00:00:00Z"
        ExpiryTime := some "2018-06-01T00:00:00Z"
        Interval := some [("Week", .int 2)]
        Frequency := "Week" } }

/-! ## Steps of the panic-or-value computations -/

/-- A step that did not panic hands its value on. -/
theorem except_ok_bind {ε α β : Type} (a : α) (f : α → Except ε β) :
    (Except.ok a >>= f) = f a := rfl

/-- A panic ends the computation. -/
theorem except_error_bind {ε α β : Type} (e : ε) (f : α → Except ε β) :
    (Except.error e >>= f) = Except.error e := rfl

/-- Mapping over a value that is there. -/
theorem except_ok_map {ε α β : Type} (a : α) (f : α → β) :
    (f <$> (Except.ok a : Except ε α)) = Except.ok (f a) := rfl

/-- Mapping over a panic. -/
theorem except_error_map {ε α β : Type} (e : ε) (f : α → β) :
    (f <$> (Except.error e : Except ε α)) = Except.error e := rfl

/-- The value a computation ends with. -/
theorem except_pure {ε α : Type} (a : α) : (pure a : Except ε α) = Except.ok a := rfl

/-! ## Reading back what was set -/

/-- After `m[k] = v` the entry found under `k` is `v`. -/
theorem find_assign_same (m : GoMap) (k : String) (v : Value) :
    (GoMap.assign m k v).find? (fun e => e.1 == k) = some (k, v) := by
  induction m with
  | nil => simp [GoMap.assign]
  | cons e rest ih =>
    by_cases hk : e.1 = k
    · simp [GoMap.assign, hk]
    · simp [GoMap.assign, hk, List.find?_cons, ih]

/-- Writing under `k` leaves the entry found under another key as it was. -/
theorem find_assign_other (m : GoMap) (k k' : String) (v : Value) (hne : k ≠ k') :
    (GoMap.assign m k v).find? (fun e => e.1 == k') = m.find? (fun e => e.1 == k') := by
  induction m with
  | nil => simp [GoMap.assign, hne]
  | cons e rest ih =>
    by_cases hk : e.1 = k
    · have hk' : e.1 ≠ k' := fun hek => hne (hk.symm.trans hek)
      simp [GoMap.assign, hk, List.find?_cons, hne, hk']
    · simp [GoMap.assign, hk, List.find?_cons, ih]

/-- The writer does not touch the schema. -/
theorem set_schema (d : ResourceData) (k : String) (v : Value) :
    (d.Set k v).schema = d.schema := by
  unfold ResourceData.Set
  split
  · rfl
  · split
    · rfl
    · split <;> rfl

/-- The writer does not touch the identity. -/
theorem set_id (d : ResourceData) (k : String) (v : Value) : (d.Set k v).Id = d.Id := by
  unfold ResourceData.Set
  split
  · rfl
  · split
    · rfl
    · split <;> rfl

/-- After `d.Set(k, v)` with a value the field of `k` takes, `d.Get(k)` is that value. -/
theorem get_set_same (d : ResourceData) (k : String) (v : Value) (e : String × Schema)
    (hfield : d.schema.find? (fun e => e.1 == k) = some e)
    (hacc : e.2.Typ.accepts v.indirect = true) :
    (d.Set k v).Get k = v.indirect := by
  unfold ResourceData.Set
  rw [hfield]
  cases hv : v.indirect with
  | nil =>
    rw [hv] at hacc
    cases ht : e.2.Typ <;> rw [ht] at hacc <;> simp [ValueType.accepts] at hacc
  | str x => rw [hv] at hacc; simp [hacc, ResourceData.Get, find_assign_same]
  | int x => rw [hv] at hacc; simp [hacc, ResourceData.Get, find_assign_same]
  | bool x => rw [hv] at hacc; simp [hacc, ResourceData.Get, find_assign_same]
  | ptr x => rw [hv] at hacc; simp [hacc, ResourceData.Get, find_assign_same]
  | map x => rw [hv] at hacc; simp [hacc, ResourceData.Get, find_assign_same]
  | set x => rw [hv] at hacc; simp [hacc, ResourceData.Get, find_assign_same]

/-- A call `d.Set(k, v)` leaves what `d.Get` answers for another key as it was. -/
theorem get_set_other (d : ResourceData) (k k' : String) (v : Value) (hne : k ≠ k') :
    (d.Set k v).Get k' = d.Get k' := by
  unfold ResourceData.Set
  split
  · rfl
  · split
    · simp [ResourceData.Get, find_assign_other _ _ _ _ hne]
    · split
      · simp [ResourceData.Get, find_assign_other _ _ _ _ hne]
      · rfl

/-! ## Segments of a parsed identity -/

/-- Reading a key the path map does not have gives the empty string. -/
theorem stringMapIndex_missing (m : List (String × String)) (k : String)
    (hk : ∀ e ∈ m, e.1 ≠ k) : stringMapIndex m k = "" := by
  have hnone : m.find? (fun e => e.1 == k) = none := by
    simp [List.find?_eq_none]
    intro a b hab
    exact hk (a, b) hab
  simp [stringMapIndex, hnone]

/-! ## Delete and Read on a resource that is gone -/

/-- Claim C1. Delete absorbs not-found, for the Account, Runbook and Schedule handlers and
every identity that parses: when the `Delete` call the handler issues answers with an
error and a response of status 404, the handler returns nil (first three parts). And
when the remote answers the first `Delete` without error and the second, in the state the
first left, with an error and status 404, two runs of the handler on the same identity,
one after the other, both return nil (last three parts). -/
theorem delete_not_found_is_success {σ : Type} (h : Helpers) (armClient : ArmClient σ)
    (d : ResourceData) (w : World σ) (id : ResourceID)
    (hid : h.parseAzureResourceID d.Id = .ok id) :
    (∀ remote err,
      armClient.automationAccountClient.Delete w.remote id.ResourceGroup
          (stringMapIndex id.Path "automationAccounts")
        = (remote, httpStatus StatusNotFound, some err) →
      resourceArmAutomationAccountDelete h armClient d w
        = .returned d (resourceArmAutomationAccountDelete h armClient d w).world none)
    ∧ (∀ remote err,
      armClient.automationRunbookClient.Delete w.remote id.ResourceGroup
          (stringMapIndex id.Path "automationAccounts")
          (stringMapIndex id.Path "automationAccounts")
        = (remote, httpStatus StatusNotFound, some err) →
      resourceArmAutomationRunbookDelete h armClient d w
        = .returned d (resourceArmAutomationRunbookDelete h armClient d w).world none)
    ∧ (∀ remote err,
      armClient.automationScheduleClient.Delete w.remote id.ResourceGroup
          (stringMapIndex id.Path "automationAccounts") (stringMapIndex id.Path "schedules")
        = (remote, httpStatus StatusNotFound, some err) →
      resourceArmAutomationScheduleDelete h armClient d w
        = .returned d (resourceArmAutomationScheduleDelete h armClient d w).world none)
    ∧ (∀ remote1 resp1 remote2 err,
      armClient.automationAccountClient.Delete w.remote id.ResourceGroup
          (stringMapIndex id.Path "automationAccounts") = (remote1, resp1, none) →
      armClient.automationAccountClient.Delete remote1 id.ResourceGroup
          (stringMapIndex id.Path "automationAccounts")
        = (remote2, httpStatus StatusNotFound, some err) →
      resourceArmAutomationAccountDelete h armClient d w
          = .returned d (resourceArmAutomationAccountDelete h armClient d w).world none
        ∧ (resourceArmAutomationAccountDelete h armClient d w).world.remote = remote1
        ∧ resourceArmAutomationAccountDelete h armClient d
              (resourceArmAutomationAccountDelete h armClient d w).world
          = .returned d (resourceArmAutomationAccountDelete h armClient d
              (resourceArmAutomationAccountDelete h armClient d w).world).world none
        ∧ (resourceArmAutomationAccountDelete h armClient d
              (resourceArmAutomationAccountDelete h armClient d w).world).world.remote = remote2)
    ∧ (∀ remote1 resp1 remote2 err,
      armClient.automationRunbookClient.Delete w.remote id.ResourceGroup
          (stringMapIndex id.Path "automationAccounts")
          (stringMapIndex id.Path "automationAccounts") = (remote1, resp1, none) →
      armClient.automationRunbookClient.Delete remote1 id.ResourceGroup
          (stringMapIndex id.Path "automationAccounts")
          (stringMapIndex id.Path "automationAccounts")
        = (remote2, httpStatus StatusNotFound, some err) →
      resourceArmAutomationRunbookDelete h armClient d w
          = .returned d (resourceArmAutomationRunbookDelete h armClient d w).world none
        ∧ (resourceArmAutomationRunbookDelete h armClient d w).world.remote = remote1
        ∧ resourceArmAutomationRunbookDelete h armClient d
              (resourceArmAutomationRunbookDelete h armClient d w).world
          = .returned d (resourceArmAutomationRunbookDelete h armClient d
              (resourceArmAutomationRunbookDelete h armClient d w).world).world none
        ∧ (resourceArmAutomationRunbookDelete h armClient d
              (resourceArmAutomationRunbookDelete h armClient d w).world).world.remote = remote2)
    ∧ (∀ remote1 resp1 remote2 err,
      armClient.automationScheduleClient.Delete w.remote id.ResourceGroup
          (stringMapIndex id.Path "automationAccounts") (stringMapIndex id.Path "schedules")
        = (remote1, resp1, none) →
      armClient.automationScheduleClient.Delete remote1 id.ResourceGroup
          (stringMapIndex id.Path "automationAccounts") (stringMapIndex id.Path "schedules")
        = (remote2, httpStatus StatusNotFound, some err) →
      resourceArmAutomationScheduleDelete h armClient d w
          = .returned d (resourceArmAutomationScheduleDelete h armClient d w).world none
        ∧ (resourceArmAutomationScheduleDelete h armClient d w).world.remote = remote1
        ∧ resourceArmAutomationScheduleDelete h armClient d
              (resourceArmAutomationScheduleDelete h armClient d w).world
          = .returned d (resourceArmAutomationScheduleDelete h armClient d
              (resourceArmAutomationScheduleDelete h armClient d w).world).world none
        ∧ (resourceArmAutomationScheduleDelete h armClient d
              (resourceArmAutomationScheduleDelete h armClient d w).world).world.remote
                = remote2) := by
  refine ⟨?_, ?_, ?_, ?_, ?_, ?_⟩
  · intro remote err hdel
    simp [resourceArmAutomationAccountDelete, hid, World.record, World.after, hdel,
      AutorestResponse.StatusCode, httpStatus, Run.world]
  · intro remote err hdel
    simp [resourceArmAutomationRunbookDelete, hid, World.record, World.after, hdel,
      AutorestResponse.StatusCode, httpStatus, Run.world]
  · intro remote err hdel
    simp [resourceArmAutomationScheduleDelete, hid, World.record, World.after, hdel,
      AutorestResponse.StatusCode, httpStatus, Run.world]
  · intro remote1 resp1 remote2 err h1 h2
    have e1 : resourceArmAutomationAccountDelete h armClient d w
        = .returned d ((w.record (.enter "resourceArmAutomationAccountDelete")).after
            (.accountDelete id.ResourceGroup (stringMapIndex id.Path "automationAccounts"))
            remote1) none := by
      simp [resourceArmAutomationAccountDelete, hid, World.record, World.after, h1]
    rw [e1]
    simp [resourceArmAutomationAccountDelete, hid, World.record, World.after, h2,
      AutorestResponse.StatusCode, httpStatus, Run.world]
  · intro remote1 resp1 remote2 err h1 h2
    have e1 : resourceArmAutomationRunbookDelete h armClient d w
        = .returned d ((w.record (.enter "resourceArmAutomationRunbookDelete")).after
            (.runbookDelete id.ResourceGroup (stringMapIndex id.Path "automationAccounts")
              (stringMapIndex id.Path "automationAccounts")) remote1) none := by
      simp [resourceArmAutomationRunbookDelete, hid, World.record, World.after, h1]
    rw [e1]
    simp [resourceArmAutomationRunbookDelete, hid, World.record, World.after, h2,
      AutorestResponse.StatusCode, httpStatus, Run.world]
  · intro remote1 resp1 remote2 err h1 h2
    have e1 : resourceArmAutomationScheduleDelete h armClient d w
        = .returned d ((w.record (.enter "resourceArmAutomationScheduleDelete")).after
            (.scheduleDelete id.ResourceGroup (stringMapIndex id.Path "automationAccounts")
              (stringMapIndex id.Path "schedules")) remote1) none := by
      simp [resourceArmAutomationScheduleDelete, hid, World.record, World.after, h1]
    rw [e1]
    simp [resourceArmAutomationScheduleDelete, hid, World.record, World.after, h2,
      AutorestResponse.StatusCode, httpStatus, Run.world]

/-- Witness for C1: the sample account exists remotely; the first Delete removes it, the
second meets not-found, and both runs return nil. -/
theorem delete_not_found_is_success_witness :
    sampleHelpers.parseAzureResourceID (sampleAccountData sampleAccountId).Id
        = .ok { ResourceGroup := "RG", Path := [("automationAccounts", "acct1")] }
    ∧ (sampleArmClient true).automationAccountClient.Delete [["RG", "acct1"]] "RG" "acct1"
        = ([], httpStatus 200, none)
    ∧ (sampleArmClient true).automationAccountClient.Delete [] "RG" "acct1"
        = ([], httpStatus StatusNotFound, some { msg := "ResourceNotFound" })
    ∧ resourceArmAutomationAccountDelete sampleHelpers (sampleArmClient true)
          (sampleAccountData sampleAccountId) { remote := [["RG", "acct1"]], log := [] }
        = .returned (sampleAccountData sampleAccountId)
            (resourceArmAutomationAccountDelete sampleHelpers (sampleArmClient true)
              (sampleAccountData sampleAccountId)
              { remote := [["RG", "acct1"]], log := [] }).world none
    ∧ resourceArmAutomationAccountDelete sampleHelpers (sampleArmClient true)
          (sampleAccountData sampleAccountId)
          (resourceArmAutomationAccountDelete sampleHelpers (sampleArmClient true)
            (sampleAccountData sampleAccountId)
            { remote := [["RG", "acct1"]], log := [] }).world
        = .returned (sampleAccountData sampleAccountId)
            (resourceArmAutomationAccountDelete sampleHelpers (sampleArmClient true)
              (sampleAccountData sampleAccountId)
              (resourceArmAutomationAccountDelete sampleHelpers (sampleArmClient true)
                (sampleAccountData sampleAccountId)
                { remote := [["RG", "acct1"]], log := [] }).world).world none :=
  have twice := (delete_not_found_is_success sampleHelpers (sampleArmClient true)
    (sampleAccountData sampleAccountId) { remote := [["RG", "acct1"]], log := [] }
    { ResourceGroup := "RG", Path := [("automationAccounts", "acct1")] } rfl).2.2.2.1
    [] (httpStatus 200) [] { msg := "ResourceNotFound" } rfl rfl
  ⟨rfl, rfl, rfl, twice.1, twice.2.2.1⟩

/-- Claim C2. Read absorbs not-found, for the Account, Runbook and Schedule handlers and
every identity that parses: when the `Get` the handler issues answers with an error and
`responseWasNotFound` recognises the response, Read returns nil and the local identity
is the empty string afterwards (the other fields are as before). -/
theorem read_not_found_clears_identity {σ : Type} (h : Helpers) (armClient : ArmClient σ)
    (d : ResourceData) (w : World σ) (id : ResourceID)
    (hid : h.parseAzureResourceID d.Id = .ok id) :
    (∀ remote resp err,
      armClient.automationAccountClient.Get w.remote id.ResourceGroup
          (stringMapIndex id.Path "automationAccounts") = (remote, resp, some err) →
      h.responseWasNotFound resp.Response = true →
      resourceArmAutomationAccountRead h armClient d w
          = .returned (d.SetId "")
              (resourceArmAutomationAccountRead h armClient d w).world none)
    ∧ (∀ remote resp err,
      armClient.automationRunbookClient.Get w.remote id.ResourceGroup
          (stringMapIndex id.Path "automationAccounts") (stringMapIndex id.Path "runbooks")
        = (remote, resp, some err) →
      h.responseWasNotFound resp.Response = true →
      resourceArmAutomationRunbookRead h armClient d w
          = .returned (d.SetId "")
              (resourceArmAutomationRunbookRead h armClient d w).world none)
    ∧ (∀ remote resp err,
      armClient.automationScheduleClient.Get w.remote id.ResourceGroup
          (stringMapIndex id.Path "automationAccounts") (stringMapIndex id.Path "schedules")
        = (remote, resp, some err) →
      h.responseWasNotFound resp.Response = true →
      resourceArmAutomationScheduleRead h armClient d w
          = .returned (d.SetId "")
              (resourceArmAutomationScheduleRead h armClient d w).world none)
    ∧ (d.SetId "").Id = "" ∧ (d.SetId "").fields = d.fields := by
  refine ⟨?_, ?_, ?_, rfl, rfl⟩
  · intro remote resp err hget hnf
    simp [resourceArmAutomationAccountRead, hid, World.record, World.after, hget, hnf,
      Run.world]
  · intro remote resp err hget hnf
    simp [resourceArmAutomationRunbookRead, hid, World.record, World.after, hget, hnf,
      Run.world]
  · intro remote resp err hget hnf
    simp [resourceArmAutomationScheduleRead, hid, World.record, World.after, hget, hnf,
      Run.world]

/-- Witness for C2: the sample runbook does not exist remotely; Read returns nil and
clears the identity. -/
theorem read_not_found_clears_identity_witness :
    sampleHelpers.parseAzureResourceID (sampleRunbookData sampleRunbookId).Id
        = .ok { ResourceGroup := "RG",
                Path := [("automationAccounts", "acct1"), ("runbooks", "rb1")] }
    ∧ (sampleArmClient true).automationRunbookClient.Get [] "RG" "acct1" "rb1"
        = ([], sampleRunbook true false, some { msg := "ResourceNotFound" })
    ∧ sampleHelpers.responseWasNotFound (sampleRunbook true false).Response = true
    ∧ resourceArmAutomationRunbookRead sampleHelpers (sampleArmClient true)
          (sampleRunbookData sampleRunbookId) { remote := [], log := [] }
        = .returned ((sampleRunbookData sampleRunbookId).SetId "")
            (resourceArmAutomationRunbookRead sampleHelpers (sampleArmClient true)
              (sampleRunbookData sampleRunbookId) { remote := [], log := [] }).world none :=
  ⟨rfl, rfl, rfl,
    (read_not_found_clears_identity sampleHelpers (sampleArmClient true)
      (sampleRunbookData sampleRunbookId) { remote := [], log := [] }
      { ResourceGroup := "RG", Path := [("automationAccounts", "acct1"), ("runbooks", "rb1")] }
      rfl).2.1 [] (sampleRunbook true false) { msg := "ResourceNotFound" } rfl rfl⟩

/-! ## Runbook delete: the name handed to the remote call -/

/-- Claim C3, the code at the sample runbook `rb1` of account `acct1`: the Delete call
goes out with `acct1` as the account name and `acct1` again as the resource name, not
with `rb1`. The remote has no runbook `acct1`, answers not-found, the handler returns
nil, and the runbook `rb1` is still there. -/
theorem runbook_delete_passes_account_name :
    resourceArmAutomationRunbookDelete sampleHelpers (sampleArmClient true)
        (sampleRunbookData sampleRunbookId) { remote := [["RG", "acct1", "rb1"]], log := [] }
      = .returned (sampleRunbookData sampleRunbookId)
          { remote := [["RG", "acct1", "rb1"]],
            log := [.enter "resourceArmAutomationRunbookDelete",
                    .runbookDelete "RG" "acct1" "acct1"] } none
    ∧ sampleHelpers.parseAzureResourceID sampleRunbookId
      = .ok { ResourceGroup := "RG",
              Path := [("automationAccounts", "acct1"), ("runbooks", "rb1")] }
    ∧ "acct1" ≠ "rb1" :=
  ⟨rfl, rfl, by decide⟩

/-! ## Schedule: frequency and interval -/

/-- Claim C4 fails as stated: for the valid config with frequency "Week" and interval 2
the payload carries the mapping with key "Week", which is not the mapping with the
lower-case key "week". -/
theorem schedule_interval_key_not_lowercased :
    StringInSlice ["Day", "Hour", "Month", "OneTime", "Week"] true "Week" = true
    ∧ (sampleScheduleData "").Get "frequency" = .str "Week"
    ∧ (sampleScheduleData "").Get "interval" = .int 2
    ∧ schedulePayloadInterval (sampleScheduleData "") = some [("Week", .int 2)]
    ∧ schedulePayloadInterval (sampleScheduleData "") ≠ some [(ToLower "Week", .int 2)]
    ∧ schedulePayloadInterval (sampleScheduleData "") ≠ some [("week", .int 2)] := by
  refine ⟨by decide, rfl, rfl, rfl, ?_, ?_⟩
  · have e : schedulePayloadInterval (sampleScheduleData "") = some [("Week", .int 2)] := rfl
    rw [e]
    simp [ToLower]
  · have e : schedulePayloadInterval (sampleScheduleData "") = some [("Week", .int 2)] := rfl
    rw [e]
    simp

/-- Claim C4 as amended. For every Schedule config with frequency `f` and interval `n`
(and string `name`, `resource_group_name`, `account_name`, `description`), the handler
builds its payload, and the payload carries an Interval mapping with exactly one entry,
whose key is `f` character for character and whose value is `n`. -/
theorem schedule_interval_keyed_by_frequency (d : ResourceData)
    (name resGroup accName description f : String) (n : Int)
    (hname : d.Get "name" = .str name)
    (hgroup : d.Get "resource_group_name" = .str resGroup)
    (hacc : d.Get "account_name" = .str accName)
    (hdesc : d.Get "description" = .str description)
    (hfreq : d.Get "frequency" = .str f)
    (hint : d.Get "interval" = .int n) :
    scheduleCreateUpdateArguments d
      = .ok (resGroup, accName, name,
          { Name := some name
            ScheduleCreateOrUpdateProperties := some
              { Description := some description
                StartTime := none
                ExpiryTime := none
                Interval := some [(f, .int n)]
                Frequency := f } })
    ∧ schedulePayloadInterval d = some [(f, .int n)]
    ∧ ([(f, Value.int n)] : GoMap).length = 1 := by
  have e : scheduleCreateUpdateArguments d
      = .ok (resGroup, accName, name,
          { Name := some name
            ScheduleCreateOrUpdateProperties := some
              { Description := some description
                StartTime := none
                ExpiryTime := none
                Interval := some [(f, .int n)]
                Frequency := f } }) := by
    simp [scheduleCreateUpdateArguments, hname, hgroup, hacc, hdesc, hfreq, hint,
      Value.asString, GoMap.assign]
    rfl
  refine ⟨e, ?_, rfl⟩
  simp [schedulePayloadInterval, e]

/-- Witness for C4 as amended: frequency "week" (lower case, valid up to case) with
interval 3 gives the mapping with key "week". -/
theorem schedule_interval_keyed_by_frequency_witness :
    schedulePayloadInterval
        { schema := resourceArmAutomationSchedule, id := "",
          fields := [("name", .str "sch1"), ("account_name", .str "acct1"),
                     ("resource_group_name", .str "RG"), ("frequency", .str "week"),
                     ("interval", .int 3)] }
      = some [("week", .int 3)] :=
  (schedule_interval_keyed_by_frequency
    { schema := resourceArmAutomationSchedule, id := "",
      fields := [("name", .str "sch1"), ("account_name", .str "acct1"),
                 ("resource_group_name", .str "RG"), ("frequency", .str "week"),
                 ("interval", .int 3)] }
    "sch1" "RG" "acct1" "" "week" 3 rfl rfl rfl rfl rfl rfl).2.1

/-- Claim C5, the code at a remote schedule whose Interval is the single-entry mapping
with key "Week" and value 2, read into a local state that has the identity only. Read
hands the whole mapping to `d.Set("interval", ...)`; the `interval` field is declared
`TypeInt`, its writer does not take a mapping, and a local state with the Schedule
schema comes out of that call as it went in (whatever the mapping). So after the run
`interval` still reads 0, not 2; `frequency` is written back as "Week". -/
theorem schedule_read_does_not_set_interval :
    (sampleArmClient true).automationScheduleClient.Get [["RG", "acct1", "sch1"]]
        "RG" "acct1" "sch1"
      = ([["RG", "acct1", "sch1"]], sampleSchedule true true, none)
    ∧ (sampleSchedule true true).ScheduleProperties.map (fun p => p.Interval)
      = some (some [("Week", .int 2)])
    ∧ (schemaField resourceArmAutomationSchedule "interval").map (fun f => f.Typ)
      = some .TypeInt
    ∧ ValueType.accepts .TypeInt (Value.ofMapPtr (some [("Week", .int 2)])).indirect = false
    ∧ (∀ (d : ResourceData) (m : GoMap), d.schema = resourceArmAutomationSchedule →
        d.Set "interval" (Value.ofMapPtr (some m)) = d)
    ∧ (resourceArmAutomationScheduleRead sampleHelpers (sampleArmClient true)
        (importedData resourceArmAutomationSchedule sampleScheduleId)
        { remote := [["RG", "acct1", "sch1"]], log := [] }).data.map
          (fun d => d.Get "interval")
      = some (.int 0)
    ∧ (resourceArmAutomationScheduleRead sampleHelpers (sampleArmClient true)
        (importedData resourceArmAutomationSchedule sampleScheduleId)
        { remote := [["RG", "acct1", "sch1"]], log := [] }).data.map
          (fun d => d.Get "interval")
      ≠ some (.int 2)
    ∧ (resourceArmAutomationScheduleRead sampleHelpers (sampleArmClient true)
        (importedData resourceArmAutomationSchedule sampleScheduleId)
        { remote := [["RG", "acct1", "sch1"]], log := [] }).data.map
          (fun d => d.Get "frequency")
      = some (.str "Week") := by
  have e : (resourceArmAutomationScheduleRead sampleHelpers (sampleArmClient true)
        (importedData resourceArmAutomationSchedule sampleScheduleId)
        { remote := [["RG", "acct1", "sch1"]], log := [] }).data.map
          (fun d => d.Get "interval")
      = some (.int 0) := rfl
  refine ⟨rfl, rfl, rfl, rfl, ?_, e, ?_, rfl⟩
  · intro d m hschema
    simp [ResourceData.Set, hschema, resourceArmAutomationSchedule, Value.ofMapPtr,
      Value.indirect, ValueType.accepts]
  · rw [e]
    simp

/-! ## CreateOrUpdate: the single-block fields -/

/-- Claim C6 fails as stated: with an empty `sku` collection the Account handler, and
with an empty `publishContentLink` collection the Runbook handler, does not return at
all, with or without an error: the expand step indexes element 0 and the run ends in
an index-out-of-range panic. -/
theorem create_update_empty_block_panics :
    (sampleAccountDataNoSku.Get "sku" = .set []
      ∧ resourceArmAutomationAccountCreateUpdate sampleHelpers (sampleArmClient true)
          sampleAccountDataNoSku { remote := [], log := [] }
        = .panicked
            { remote := [],
              log := [.enter "resourceArmAutomationAccountCreateUpdate",
                .printf "[INFO] preparing arguments for AzureRM Automation Account creation."] }
            .indexOutOfRange)
    ∧ (sampleRunbookDataNoLink.Get "publishContentLink" = .set []
      ∧ resourceArmAutomationRunbookCreateUpdate sampleHelpers (sampleArmClient true)
          sampleRunbookDataNoLink { remote := [], log := [] }
        = .panicked
            { remote := [],
              log := [.enter "resourceArmAutomationRunbookCreateUpdate",
                .printf "[INFO] preparing arguments for AzureRM Automation Runbook creation."] }
            .indexOutOfRange) :=
  ⟨⟨rfl, rfl⟩, ⟨rfl, rfl⟩⟩

/-- Claim C6 as amended. The handlers do not validate the single-block fields. With an
empty `sku` collection `expandSku`, and with an empty `publishContentLink` collection
`expandContentLink`, indexes element 0 and panics with index out of range; the
CreateOrUpdate run of a config whose other fields are of their declared types ends in
that panic, after the log line and before any remote call. With a block at element 0
that carries a string `name` (`uri`), the expand step returns the Sku (ContentLink) of
that block. The schema declares `sku` and `publishContentLink` as sets that are
`Required` with `MaxItems` 1 (last two parts). -/
theorem expand_indexes_element_zero {σ : Type} (h : Helpers) (armClient : ArmClient σ)
    (d : ResourceData) (w : World σ) :
    (d.Get "sku" = .set [] → expandSku d = .error .indexOutOfRange)
    ∧ (d.Get "publishContentLink" = .set [] →
        expandContentLink d = .error .indexOutOfRange)
    ∧ (∀ name location resGroup tags,
        d.Get "name" = .str name → d.Get "location" = .str location →
        d.Get "resource_group_name" = .str resGroup → d.Get "tags" = .map tags →
        d.Get "sku" = .set [] →
        resourceArmAutomationAccountCreateUpdate h armClient d w
          = .panicked
              { remote := w.remote,
                log := w.log ++ [.enter "resourceArmAutomationAccountCreateUpdate",
                  .printf "[INFO] preparing arguments for AzureRM Automation Account creation."] }
              .indexOutOfRange)
    ∧ (∀ name location resGroup tags accName runbookType logProgress logVerbose description,
        d.Get "name" = .str name → d.Get "location" = .str location →
        d.Get "resource_group_name" = .str resGroup → d.Get "tags" = .map tags →
        d.Get "account_name" = .str accName → d.Get "runbookType" = .str runbookType →
        d.Get "logProgress" = .bool logProgress → d.Get "logVerbose" = .bool logVerbose →
        d.Get "description" = .str description →
        d.Get "publishContentLink" = .set [] →
        resourceArmAutomationRunbookCreateUpdate h armClient d w
          = .panicked
              { remote := w.remote,
                log := w.log ++ [.enter "resourceArmAutomationRunbookCreateUpdate",
                  .printf "[INFO] preparing arguments for AzureRM Automation Runbook creation."] }
              .indexOutOfRange)
    ∧ (∀ code block rest name,
        d.Get "sku" = .set ((code, .map block) :: rest) →
        GoMap.index block "name" = .str name →
        expandSku d = .ok { Name := name })
    ∧ (∀ code block rest uri,
        d.Get "publishContentLink" = .set ((code, .map block) :: rest) →
        GoMap.index block "uri" = .str uri →
        expandContentLink d = .ok { URI := some uri })
    ∧ (schemaField resourceArmAutomationAccount "sku").map
        (fun f => (f.Typ, f.Required, f.MaxItems)) = some (.TypeSet, true, 1)
    ∧ (schemaField resourceArmAutomationRunbook "publishContentLink").map
        (fun f => (f.Typ, f.Required, f.MaxItems)) = some (.TypeSet, true, 1) := by
  have hsku : d.Get "sku" = .set [] → expandSku d = .error .indexOutOfRange := by
    intro hs
    simp [expandSku, hs, Value.asSet, SchemaSet.List, sliceIndex]
    rfl
  have hlink : d.Get "publishContentLink" = .set [] →
      expandContentLink d = .error .indexOutOfRange := by
    intro hs
    simp [expandContentLink, hs, Value.asSet, SchemaSet.List, sliceIndex]
    rfl
  refine ⟨hsku, hlink, ?_, ?_, ?_, ?_, rfl, rfl⟩
  · intro name location resGroup tags hn hl hg ht hs
    have e : accountCreateUpdateArguments h d = .error .indexOutOfRange := by
      simp [accountCreateUpdateArguments, hn, hl, hg, ht, hsku hs, Value.asString,
        Value.asMap]
      rfl
    simp [resourceArmAutomationAccountCreateUpdate, e, World.record]
  · intro name location resGroup tags accName runbookType logProgress logVerbose description
      hn hl hg ht ha hr hp hv hd hs
    have e : runbookCreateUpdateArguments h d = .error .indexOutOfRange := by
      simp [runbookCreateUpdateArguments, hn, hl, hg, ht, ha, hr, hp, hv, hd, hlink hs,
        Value.asString, Value.asMap, Value.asBool]
      rfl
    simp [resourceArmAutomationRunbookCreateUpdate, e, World.record]
  · intro code block rest name hs hname
    simp [expandSku, hs, Value.asSet, SchemaSet.List, sliceIndex, Value.asMap, hname,
      Value.asString, except_ok_bind, except_ok_map]
  · intro code block rest uri hs huri
    simp [expandContentLink, hs, Value.asSet, SchemaSet.List, sliceIndex, Value.asMap, huri,
      Value.asString, except_ok_bind, except_ok_map]

/-- Witness for C6 as amended: the sample account without a `sku` block, and the sample
account with its `Basic` block. -/
theorem expand_indexes_element_zero_witness :
    expandSku sampleAccountDataNoSku = .error .indexOutOfRange
    ∧ resourceArmAutomationAccountCreateUpdate sampleHelpers (sampleArmClient true)
          sampleAccountDataNoSku { remote := [], log := [] }
        = .panicked
            { remote := [],
              log := [] ++ [.enter "resourceArmAutomationAccountCreateUpdate",
                .printf "[INFO] preparing arguments for AzureRM Automation Account creation."] }
            .indexOutOfRange
    ∧ expandSku (sampleAccountData "") = .ok { Name := "Basic" } :=
  ⟨(expand_indexes_element_zero sampleHelpers (sampleArmClient true) sampleAccountDataNoSku
      { remote := [], log := [] }).1 rfl,
   (expand_indexes_element_zero sampleHelpers (sampleArmClient true) sampleAccountDataNoSku
      { remote := [], log := [] }).2.2.1 "acct1" "westus" "RG" [] rfl rfl rfl rfl rfl,
   (expand_indexes_element_zero sampleHelpers (sampleArmClient true) (sampleAccountData "")
      { remote := ([] : SampleRemote), log := [] }).2.2.2.2.1 5 [("name", .str "Basic")] []
      "Basic" rfl rfl⟩

/-! ## CreateOrUpdate: the identity -/

/-- Claim C7. For the Account, Runbook and Schedule CreateOrUpdate handlers: when the
arguments are built, the remote create-or-update answers without error and the `Get` that
follows (in the state the create left) answers without error but with a nil `ID`, the
handler returns the error "Cannot read ... ID", the local state is returned as it was
(no identity stored), and the log ends with the two remote calls: Read is not
entered. -/
theorem create_update_identity_missing {σ : Type} (h : Helpers) (armClient : ArmClient σ)
    (d : ResourceData) (w : World σ) :
    (∀ resGroup name parameters remote1 created remote2 read,
        accountCreateUpdateArguments h d = .ok (resGroup, name, parameters) →
        armClient.automationAccountClient.CreateOrUpdate w.remote resGroup name parameters
          = (remote1, created, none) →
        armClient.automationAccountClient.Get remote1 resGroup name = (remote2, read, none) →
        read.ID = none →
        resourceArmAutomationAccountCreateUpdate h armClient d w
          = .returned d
              { remote := remote2,
                log := w.log ++ [.enter "resourceArmAutomationAccountCreateUpdate",
                  .printf "[INFO] preparing arguments for AzureRM Automation Account creation.",
                  .accountCreateOrUpdate resGroup name parameters, .accountGet resGroup name] }
              (some { msg := "Cannot read Automation Account '" ++ name
                ++ "' (resource group " ++ resGroup ++ ") ID" }))
    ∧ (∀ resGroup accName name parameters remote1 created remote2 read,
        runbookCreateUpdateArguments h d = .ok (resGroup, accName, name, parameters) →
        armClient.automationRunbookClient.CreateOrUpdate w.remote resGroup accName name
            parameters
          = (remote1, created, none) →
        armClient.automationRunbookClient.Get remote1 resGroup accName name
          = (remote2, read, none) →
        read.ID = none →
        resourceArmAutomationRunbookCreateUpdate h armClient d w
          = .returned d
              { remote := remote2,
                log := w.log ++ [.enter "resourceArmAutomationRunbookCreateUpdate",
                  .printf "[INFO] preparing arguments for AzureRM Automation Runbook creation.",
                  .runbookCreateOrUpdate resGroup accName name parameters,
                  .runbookGet resGroup accName name] }
              (some { msg := "Cannot read Automation Runbook '" ++ name
                ++ "' (resource group " ++ resGroup ++ ") ID" }))
    ∧ (∀ resGroup accName name parameters remote1 created remote2 read,
        scheduleCreateUpdateArguments d = .ok (resGroup, accName, name, parameters) →
        armClient.automationScheduleClient.CreateOrUpdate w.remote resGroup accName name
            parameters
          = (remote1, created, none) →
        armClient.automationScheduleClient.Get remote1 resGroup accName name
          = (remote2, read, none) →
        read.ID = none →
        resourceArmAutomationScheduleCreateUpdate h armClient d w
          = .returned d
              { remote := remote2,
                log := w.log ++ [.enter "resourceArmAutomationScheduleCreateUpdate",
                  .printf "[INFO] preparing arguments for AzureRM Automation Schedule creation.",
                  .scheduleCreateOrUpdate resGroup accName name parameters,
                  .scheduleGet resGroup accName name] }
              (some { msg := "Cannot read Automation Schedule '" ++ name
                ++ "' (resource group " ++ resGroup ++ ") ID" })) := by
  refine ⟨?_, ?_, ?_⟩
  · intro resGroup name parameters remote1 created remote2 read hargs hcreate hget hnil
    simp [resourceArmAutomationAccountCreateUpdate, hargs, hcreate, hget, hnil, World.record,
      World.after]
  · intro resGroup accName name parameters remote1 created remote2 read hargs hcreate hget hnil
    simp [resourceArmAutomationRunbookCreateUpdate, hargs, hcreate, hget, hnil, World.record,
      World.after]
  · intro resGroup accName name parameters remote1 created remote2 read hargs hcreate hget hnil
    simp [resourceArmAutomationScheduleCreateUpdate, hargs, hcreate, hget, hnil, World.record,
      World.after]

/-- Witness for C7: the sample remote answers the `Get` for the account without an
identity; the handler returns the error and the local identity stays empty. -/
theorem create_update_identity_missing_witness :
    accountCreateUpdateArguments sampleHelpers (sampleAccountData "")
      = .ok ("RG", "acct1",
          { AccountCreateOrUpdateProperties := some { Sku := some { Name := "Basic" } }
            Name := some "acct1", Location := some "westus", Tags := some [] })
    ∧ (sampleArmClient false).automationAccountClient.Get [["RG", "acct1"]] "RG" "acct1"
      = ([["RG", "acct1"]], sampleAccount false true, none)
    ∧ (sampleAccount false true).ID = none
    ∧ resourceArmAutomationAccountCreateUpdate sampleHelpers (sampleArmClient false)
          (sampleAccountData "") { remote := [], log := [] }
      = .returned (sampleAccountData "")
          { remote := [["RG", "acct1"]],
            log := [] ++ [.enter "resourceArmAutomationAccountCreateUpdate",
              .printf "[INFO] preparing arguments for AzureRM Automation Account creation.",
              .accountCreateOrUpdate "RG" "acct1"
                { AccountCreateOrUpdateProperties := some { Sku := some { Name := "Basic" } }
                  Name := some "acct1", Location := some "westus", Tags := some [] },
              .accountGet "RG" "acct1"] }
          (some { msg := "Cannot read Automation Account '" ++ "acct1"
            ++ "' (resource group " ++ "RG" ++ ") ID" }) :=
  ⟨rfl, rfl, rfl,
    (create_update_identity_missing sampleHelpers (sampleArmClient false)
      (sampleAccountData "") { remote := [], log := [] }).1 "RG" "acct1"
      { AccountCreateOrUpdateProperties := some { Sku := some { Name := "Basic" } }
        Name := some "acct1", Location := some "westus", Tags := some [] }
      [["RG", "acct1"]] (sampleAccount true true) [["RG", "acct1"]] (sampleAccount false true)
      rfl rfl rfl rfl⟩

/-- Claim C8. For the Account, Runbook and Schedule CreateOrUpdate handlers: when the
arguments are built, the remote create-or-update answers without error (with whatever
response `created`) and the `Get` addressed by the same resource group, account name
and name answers without error with identity `i`, the handler continues as Read on the
local state whose identity is exactly `i`: the identity comes from the `Get`, neither
from the create response nor from a local composition. -/
theorem create_update_stores_remote_identity {σ : Type} (h : Helpers)
    (armClient : ArmClient σ) (d : ResourceData) (w : World σ) :
    (∀ resGroup name parameters remote1 created remote2 read i,
        accountCreateUpdateArguments h d = .ok (resGroup, name, parameters) →
        armClient.automationAccountClient.CreateOrUpdate w.remote resGroup name parameters
          = (remote1, created, none) →
        armClient.automationAccountClient.Get remote1 resGroup name = (remote2, read, none) →
        read.ID = some i →
        resourceArmAutomationAccountCreateUpdate h armClient d w
          = resourceArmAutomationAccountRead h armClient (d.SetId i)
              { remote := remote2,
                log := w.log ++ [.enter "resourceArmAutomationAccountCreateUpdate",
                  .printf "[INFO] preparing arguments for AzureRM Automation Account creation.",
                  .accountCreateOrUpdate resGroup name parameters, .accountGet resGroup name] })
    ∧ (∀ resGroup accName name parameters remote1 created remote2 read i,
        runbookCreateUpdateArguments h d = .ok (resGroup, accName, name, parameters) →
        armClient.automationRunbookClient.CreateOrUpdate w.remote resGroup accName name
            parameters
          = (remote1, created, none) →
        armClient.automationRunbookClient.Get remote1 resGroup accName name
          = (remote2, read, none) →
        read.ID = some i →
        resourceArmAutomationRunbookCreateUpdate h armClient d w
          = resourceArmAutomationRunbookRead h armClient (d.SetId i)
              { remote := remote2,
                log := w.log ++ [.enter "resourceArmAutomationRunbookCreateUpdate",
                  .printf "[INFO] preparing arguments for AzureRM Automation Runbook creation.",
                  .runbookCreateOrUpdate resGroup accName name parameters,
                  .runbookGet resGroup accName name] })
    ∧ (∀ resGroup accName name parameters remote1 created remote2 read i,
        scheduleCreateUpdateArguments d = .ok (resGroup, accName, name, parameters) →
        armClient.automationScheduleClient.CreateOrUpdate w.remote resGroup accName name
            parameters
          = (remote1, created, none) →
        armClient.automationScheduleClient.Get remote1 resGroup accName name
          = (remote2, read, none) →
        read.ID = some i →
        resourceArmAutomationScheduleCreateUpdate h armClient d w
          = resourceArmAutomationScheduleRead h armClient (d.SetId i)
              { remote := remote2,
                log := w.log ++ [.enter "resourceArmAutomationScheduleCreateUpdate",
                  .printf "[INFO] preparing arguments for AzureRM Automation Schedule creation.",
                  .scheduleCreateOrUpdate resGroup accName name parameters,
                  .scheduleGet resGroup accName name] })
    ∧ (∀ i, (d.SetId i).Id = i ∧ (d.SetId i).fields = d.fields) := by
  refine ⟨?_, ?_, ?_, fun i => ⟨rfl, rfl⟩⟩
  · intro resGroup name parameters remote1 created remote2 read i hargs hcreate hget hsome
    simp [resourceArmAutomationAccountCreateUpdate, hargs, hcreate, hget, hsome, World.record,
      World.after]
  · intro resGroup accName name parameters remote1 created remote2 read i hargs hcreate hget hsome
    simp [resourceArmAutomationRunbookCreateUpdate, hargs, hcreate, hget, hsome, World.record,
      World.after]
  · intro resGroup accName name parameters remote1 created remote2 read i hargs hcreate hget hsome
    simp [resourceArmAutomationScheduleCreateUpdate, hargs, hcreate, hget, hsome, World.record,
      World.after]

/-- Witness for C8: creating the sample account against the sample remote; the run
ends with the identity the remote issued and the fields Read wrote. -/
theorem create_update_stores_remote_identity_witness :
    (sampleArmClient true).automationAccountClient.Get [["RG", "acct1"]] "RG" "acct1"
      = ([["RG", "acct1"]], sampleAccount true true, none)
    ∧ (sampleAccount true true).ID = some sampleAccountId
    ∧ resourceArmAutomationAccountCreateUpdate sampleHelpers (sampleArmClient true)
          (sampleAccountData "") { remote := [], log := [] }
      = resourceArmAutomationAccountRead sampleHelpers (sampleArmClient true)
          ((sampleAccountData "").SetId sampleAccountId)
          { remote := [["RG", "acct1"]],
            log := [] ++ [.enter "resourceArmAutomationAccountCreateUpdate",
              .printf "[INFO] preparing arguments for AzureRM Automation Account creation.",
              .accountCreateOrUpdate "RG" "acct1"
                { AccountCreateOrUpdateProperties := some { Sku := some { Name := "Basic" } }
                  Name := some "acct1", Location := some "westus", Tags := some [] },
              .accountGet "RG" "acct1"] }
    ∧ (resourceArmAutomationAccountCreateUpdate sampleHelpers (sampleArmClient true)
          (sampleAccountData "") { remote := [], log := [] }).data.map (fun d => d.Id)
      = some sampleAccountId :=
  ⟨rfl, rfl,
    (create_update_stores_remote_identity sampleHelpers (sampleArmClient true)
      (sampleAccountData "") { remote := [], log := [] }).1 "RG" "acct1"
      { AccountCreateOrUpdateProperties := some { Sku := some { Name := "Basic" } }
        Name := some "acct1", Location := some "westus", Tags := some [] }
      [["RG", "acct1"]] (sampleAccount true true) [["RG", "acct1"]] (sampleAccount true true)
      sampleAccountId rfl rfl rfl rfl,
    rfl⟩

/-! ## The single-block fields through expand and flatten -/

/-- Claim C9. For every Account config `d` whose `sku` set holds exactly one block with
name `v` (the set `s` that the schema's `Set` function builds from that block), and
every local state `target` with the Account schema, whatever its fields:
`expandSku` returns the Sku named `v`; `flattenAndSetSku` applied to it stores `s` under
`sku` in `target`, so that `sku` then reads as `s`, the very set of the config; `s` has
exactly one block, with name `v`, under the hash code of `v`; and every block of `s`
hashes to the code it is stored under, which is the hash of the original block. -/
theorem sku_flatten_expand_identical (h : Helpers) (d target : ResourceData) (v : String)
    (s : SchemaSet)
    (hbuilt : SchemaSet.Add (resourceAzureRMAutomationAccountSkuHash h) []
        (.map [("name", .str v)]) = .ok s)
    (hsku : d.Get "sku" = .set s)
    (htarget : target.schema = resourceArmAutomationAccount) :
    expandSku d = .ok { Name := v }
    ∧ (expandSku d >>= fun sku => flattenAndSetSku h target (some sku))
        = .ok (target.Set "sku" (.set s))
    ∧ (target.Set "sku" (.set s)).Get "sku" = .set s
    ∧ (target.Set "sku" (.set s)).Get "sku" = d.Get "sku"
    ∧ s = [(h.hashcodeString v, .map [("name", .str v)])]
    ∧ (∀ code block, (code, block) ∈ s →
        resourceAzureRMAutomationAccountSkuHash h block = .ok code
        ∧ resourceAzureRMAutomationAccountSkuHash h block
            = resourceAzureRMAutomationAccountSkuHash h (.map [("name", .str v)])) := by
  have hhash : resourceAzureRMAutomationAccountSkuHash h (.map [("name", .str v)])
      = .ok (h.hashcodeString v) := by
    simp [resourceAzureRMAutomationAccountSkuHash, Value.asMap, GoMap.index, Value.asString,
      except_ok_bind, except_pure]
  have hs : s = [(h.hashcodeString v, .map [("name", .str v)])] := by
    simp [SchemaSet.Add, hhash] at hbuilt
    exact hbuilt.symm
  subst hs
  have hexp : expandSku d = .ok { Name := v } := by
    simp [expandSku, hsku, Value.asSet, SchemaSet.List, sliceIndex, Value.asMap, GoMap.index,
      Value.asString, except_ok_bind, except_ok_map]
  have hget : (target.Set "sku"
        (.set [(h.hashcodeString v, .map [("name", .str v)])])).Get "sku"
      = .set [(h.hashcodeString v, .map [("name", .str v)])] := by
    obtain ⟨e, hfield, hacc⟩ : ∃ e, target.schema.find? (fun e => e.1 == "sku") = some e
        ∧ e.2.Typ.accepts (Value.indirect
            (.set [(h.hashcodeString v, .map [("name", .str v)])])) = true := by
      rw [htarget]
      exact ⟨_, rfl, rfl⟩
    exact get_set_same target "sku" _ e hfield hacc
  refine ⟨hexp, ?_, hget, ?_, rfl, ?_⟩
  · rw [hexp]
    simp [flattenAndSetSku, deref, GoMap.assign, SchemaSet.Add, hhash, except_ok_bind,
      except_pure]
  · rw [hget, hsku]
  · intro code block hmem
    simp at hmem
    obtain ⟨hc, hb⟩ := hmem
    subst hc
    subst hb
    exact ⟨hhash, rfl⟩

/-- Witness for C9: the sample account with its one `Basic` block, flattened into a
local state that had no `sku` yet. -/
theorem sku_flatten_expand_identical_witness :
    (importedData resourceArmAutomationAccount sampleAccountId).Get "sku" = .set []
    ∧ expandSku (sampleAccountData "") = .ok { Name := "Basic" }
    ∧ (expandSku (sampleAccountData "") >>= fun sku =>
          flattenAndSetSku sampleHelpers
            (importedData resourceArmAutomationAccount sampleAccountId) (some sku))
      = .ok ((importedData resourceArmAutomationAccount sampleAccountId).Set "sku"
          (.set [(5, .map [("name", .str "Basic")])]))
    ∧ ((importedData resourceArmAutomationAccount sampleAccountId).Set "sku"
          (.set [(5, .map [("name", .str "Basic")])])).Get "sku"
      = (sampleAccountData "").Get "sku" :=
  have w := sku_flatten_expand_identical sampleHelpers (sampleAccountData "")
    (importedData resourceArmAutomationAccount sampleAccountId) "Basic"
    [(5, .map [("name", .str "Basic")])] rfl rfl rfl
  ⟨rfl, w.1, w.2.1, w.2.2.2.1⟩

/-- Claim C10, the code for a content-link block with uri `v`: `expandContentLink` gives
the ContentLink with `URI` pointing to `v`, and the block `flattenAndSetContentLink`
builds from it holds under `uri` the address of that pointer field, not the string `v`.
The hash function asserts a string there, so on the flattened block it panics (where on
the original block it returns the hash code of `v`), and with it `results.Add` and
`flattenAndSetContentLink` as a whole; Read of the sample runbook, found remotely, ends
in that panic. -/
theorem content_link_flatten_panics (h : Helpers) (d : ResourceData) (v : String) :
    expandContentLink
        { schema := resourceArmAutomationRunbook, id := "",
          fields := [("publishContentLink",
            .set [(h.hashcodeString v, .map [("uri", .str v)])])] }
      = .ok { URI := some v }
    ∧ GoMap.assign [] "uri" (.ptr (Value.ofStringPtr (some v)))
      = [("uri", .ptr (.ptr (.str v)))]
    ∧ GoMap.index [("uri", .ptr (.ptr (.str v)))] "uri" ≠ .str v
    ∧ resourceAzureRMAutomationRunbookContentLinkHash h (.map [("uri", .ptr (.ptr (.str v)))])
      = .error .typeAssertion
    ∧ resourceAzureRMAutomationRunbookContentLinkHash h (.map [("uri", .str v)])
      = .ok (h.hashcodeString v)
    ∧ flattenAndSetContentLink h d (some { URI := some v }) = .error .typeAssertion
    ∧ resourceArmAutomationRunbookRead sampleHelpers (sampleArmClient true)
          (sampleRunbookData sampleRunbookId) { remote := [["RG", "acct1", "rb1"]], log := [] }
      = .panicked
          { remote := [["RG", "acct1", "rb1"]],
            log := [.enter "resourceArmAutomationRunbookRead",
                    .runbookGet "RG" "acct1" "rb1"] }
          .typeAssertion := by
  have hflat : resourceAzureRMAutomationRunbookContentLinkHash h
      (.map [("uri", .ptr (.ptr (.str v)))]) = .error .typeAssertion := by
    simp [resourceAzureRMAutomationRunbookContentLinkHash, Value.asMap, GoMap.index,
      Value.asString, except_ok_bind, except_error_bind]
  refine ⟨?_, rfl, ?_, hflat, ?_, ?_, rfl⟩
  · simp [expandContentLink, ResourceData.Get, Value.asSet, SchemaSet.List, sliceIndex,
      Value.asMap, GoMap.index, Value.asString, except_ok_bind, except_ok_map]
  · simp [GoMap.index]
  · simp [resourceAzureRMAutomationRunbookContentLinkHash, Value.asMap, GoMap.index,
      Value.asString, except_ok_bind, except_pure]
  · simp [flattenAndSetContentLink, deref, GoMap.assign, Value.ofStringPtr, SchemaSet.Add,
      hflat, except_ok_bind, except_error_bind]

/-! ## Identities that lack a segment -/

/-- Claim C11 fails as stated: the identity of the sample account parses and has no
`runbooks` and no `schedules` segment. Read of it as a runbook raises no error: it
issues `Get` with the empty string as the runbook name, meets not-found, clears the
identity and returns nil. Delete of it as a schedule issues `Delete` with the empty
string as the schedule name and returns nil. -/
theorem missing_segment_reaches_remote :
    sampleHelpers.parseAzureResourceID sampleAccountId
      = .ok { ResourceGroup := "RG", Path := [("automationAccounts", "acct1")] }
    ∧ resourceArmAutomationRunbookRead sampleHelpers (sampleArmClient true)
          (importedData resourceArmAutomationRunbook sampleAccountId)
          { remote := [], log := [] }
      = .returned
          ((importedData resourceArmAutomationRunbook sampleAccountId).SetId "")
          { remote := [],
            log := [.enter "resourceArmAutomationRunbookRead", .runbookGet "RG" "acct1" ""] }
          none
    ∧ resourceArmAutomationScheduleDelete sampleHelpers (sampleArmClient true)
          (importedData resourceArmAutomationSchedule sampleAccountId)
          { remote := [], log := [] }
      = .returned (importedData resourceArmAutomationSchedule sampleAccountId)
          { remote := [],
            log := [.enter "resourceArmAutomationScheduleDelete",
                    .scheduleDelete "RG" "acct1" ""] }
          none :=
  ⟨rfl, rfl, rfl⟩

/-- Claim C11 as amended. For every identity that parses, the Read and Delete handlers
make no check for the segments they need: each reads its names from the path map,
where a missing segment reads as the empty string, and issues its remote call with
them, so the log of the run is the handler entry followed by that call (the Runbook
delete handler reads the `automationAccounts` segment for both names). -/
theorem missing_segment_read_as_empty {σ : Type} (h : Helpers) (armClient : ArmClient σ)
    (d : ResourceData) (w : World σ) (id : ResourceID)
    (hid : h.parseAzureResourceID d.Id = .ok id) :
    (∀ k, (∀ e ∈ id.Path, e.1 ≠ k) → stringMapIndex id.Path k = "")
    ∧ ((resourceArmAutomationAccountRead h armClient d w).world.log
        = w.log ++ [.enter "resourceArmAutomationAccountRead",
            .accountGet id.ResourceGroup
              (stringMapIndex id.Path "automationAccounts")])
    ∧ ((resourceArmAutomationAccountDelete h armClient d w).world.log
        = w.log ++ [.enter "resourceArmAutomationAccountDelete",
            .accountDelete id.ResourceGroup
              (stringMapIndex id.Path "automationAccounts")])
    ∧ ((resourceArmAutomationRunbookRead h armClient d w).world.log
        = w.log ++ [.enter "resourceArmAutomationRunbookRead",
            .runbookGet id.ResourceGroup
              (stringMapIndex id.Path "automationAccounts") (stringMapIndex id.Path "runbooks")])
    ∧ ((resourceArmAutomationRunbookDelete h armClient d w).world.log
        = w.log ++ [.enter "resourceArmAutomationRunbookDelete",
            .runbookDelete id.ResourceGroup
              (stringMapIndex id.Path "automationAccounts")
              (stringMapIndex id.Path "automationAccounts")])
    ∧ ((resourceArmAutomationScheduleRead h armClient d w).world.log
        = w.log ++ [.enter "resourceArmAutomationScheduleRead",
            .scheduleGet id.ResourceGroup
              (stringMapIndex id.Path "automationAccounts") (stringMapIndex id.Path "schedules")])
    ∧ ((resourceArmAutomationScheduleDelete h armClient d w).world.log
        = w.log ++ [.enter "resourceArmAutomationScheduleDelete",
            .scheduleDelete id.ResourceGroup
              (stringMapIndex id.Path "automationAccounts")
              (stringMapIndex id.Path "schedules")]) := by
  refine ⟨fun k hk => stringMapIndex_missing id.Path k hk, ?_, ?_, ?_, ?_, ?_, ?_⟩
  · obtain ⟨remote, resp, err, hcall⟩ : ∃ remote resp err,
        armClient.automationAccountClient.Get w.remote id.ResourceGroup
          (stringMapIndex id.Path "automationAccounts")
          = (remote, resp, err) := ⟨_, _, _, rfl⟩
    cases err <;>
      simp only [resourceArmAutomationAccountRead, hid, hcall, World.record, World.after] <;>
      split <;> simp [Run.world]
  · obtain ⟨remote, resp, err, hcall⟩ : ∃ remote resp err,
        armClient.automationAccountClient.Delete w.remote id.ResourceGroup
          (stringMapIndex id.Path "automationAccounts")
          = (remote, resp, err) := ⟨_, _, _, rfl⟩
    cases err with
    | none =>
      simp [resourceArmAutomationAccountDelete, hid, hcall, World.record, World.after, Run.world]
    | some e =>
      simp only [resourceArmAutomationAccountDelete, hid, hcall, World.record, World.after]
      split
      · simp [Run.world]
      · split <;> simp [Run.world]
  · obtain ⟨remote, resp, err, hcall⟩ : ∃ remote resp err,
        armClient.automationRunbookClient.Get w.remote id.ResourceGroup
          (stringMapIndex id.Path "automationAccounts") (stringMapIndex id.Path "runbooks")
          = (remote, resp, err) := ⟨_, _, _, rfl⟩
    cases err <;>
      simp only [resourceArmAutomationRunbookRead, hid, hcall, World.record, World.after] <;>
      split <;> simp [Run.world]
  · obtain ⟨remote, resp, err, hcall⟩ : ∃ remote resp err,
        armClient.automationRunbookClient.Delete w.remote id.ResourceGroup
          (stringMapIndex id.Path "automationAccounts")
          (stringMapIndex id.Path "automationAccounts")
          = (remote, resp, err) := ⟨_, _, _, rfl⟩
    cases err with
    | none =>
      simp [resourceArmAutomationRunbookDelete, hid, hcall, World.record, World.after, Run.world]
    | some e =>
      simp only [resourceArmAutomationRunbookDelete, hid, hcall, World.record, World.after]
      split
      · simp [Run.world]
      · split <;> simp [Run.world]
  · obtain ⟨remote, resp, err, hcall⟩ : ∃ remote resp err,
        armClient.automationScheduleClient.Get w.remote id.ResourceGroup
          (stringMapIndex id.Path "automationAccounts") (stringMapIndex id.Path "schedules")
          = (remote, resp, err) := ⟨_, _, _, rfl⟩
    cases err <;>
      simp only [resourceArmAutomationScheduleRead, hid, hcall, World.record, World.after] <;>
      split <;> simp [Run.world]
  · obtain ⟨remote, resp, err, hcall⟩ : ∃ remote resp err,
        armClient.automationScheduleClient.Delete w.remote id.ResourceGroup
          (stringMapIndex id.Path "automationAccounts") (stringMapIndex id.Path "schedules")
          = (remote, resp, err) := ⟨_, _, _, rfl⟩
    cases err with
    | none =>
      simp [resourceArmAutomationScheduleDelete, hid, hcall, World.record, World.after, Run.world]
    | some e =>
      simp only [resourceArmAutomationScheduleDelete, hid, hcall, World.record, World.after]
      split
      · simp [Run.world]
      · split <;> simp [Run.world]

/-- Witness for C11 as amended: an identity whose path has no segment at all, read as a
schedule: both names are the empty string. -/
theorem missing_segment_read_as_empty_witness :
    stringMapIndex ([] : List (String × String)) "automationAccounts" = ""
    ∧ stringMapIndex ([] : List (String × String)) "schedules" = ""
    ∧ (resourceArmAutomationScheduleRead
          { sampleHelpers with
            parseAzureResourceID := fun _ => .ok { ResourceGroup := "RG", Path := [] } }
          (sampleArmClient true)
          (importedData resourceArmAutomationSchedule "/subscriptions/S/resourceGroups/RG")
          { remote := [], log := [] }).world.log
      = [] ++ [.enter "resourceArmAutomationScheduleRead",
          .scheduleGet "RG" (stringMapIndex [] "automationAccounts")
            (stringMapIndex [] "schedules")] :=
  have w := missing_segment_read_as_empty
    { sampleHelpers with
      parseAzureResourceID := fun _ => .ok { ResourceGroup := "RG", Path := [] } }
    (sampleArmClient true)
    (importedData resourceArmAutomationSchedule "/subscriptions/S/resourceGroups/RG")
    { remote := [], log := [] } { ResourceGroup := "RG", Path := [] } rfl
  ⟨w.1 "automationAccounts" (by simp), w.1 "schedules" (by simp), w.2.2.2.2.2.1⟩

/-! ## CreateOrUpdate: the enum values in the payload -/

/-- Claim C12. The enum values in the create/update payload are the strings of the
config, character for character: for a config whose fields have their declared types,
the arguments are built, and in them `Sku.Name` is the `name` of the sku block at
element 0 (Account), `RunbookType` is `runbookType` (Runbook) and `Frequency` is
`frequency` (Schedule). -/
theorem enum_values_sent_verbatim (h : Helpers) (d : ResourceData) :
    (∀ name location resGroup tags code block rest v,
        d.Get "name" = .str name → d.Get "location" = .str location →
        d.Get "resource_group_name" = .str resGroup → d.Get "tags" = .map tags →
        d.Get "sku" = .set ((code, .map block) :: rest) →
        GoMap.index block "name" = .str v →
        accountCreateUpdateArguments h d
          = .ok (resGroup, name,
              { AccountCreateOrUpdateProperties := some { Sku := some { Name := v } }
                Name := some name
                Location := some location
                Tags := h.expandTags tags }))
    ∧ (∀ name location resGroup tags accName runbookType logProgress logVerbose description
          code block rest uri,
        d.Get "name" = .str name → d.Get "location" = .str location →
        d.Get "resource_group_name" = .str resGroup → d.Get "tags" = .map tags →
        d.Get "account_name" = .str accName → d.Get "runbookType" = .str runbookType →
        d.Get "logProgress" = .bool logProgress → d.Get "logVerbose" = .bool logVerbose →
        d.Get "description" = .str description →
        d.Get "publishContentLink" = .set ((code, .map block) :: rest) →
        GoMap.index block "uri" = .str uri →
        runbookCreateUpdateArguments h d
          = .ok (resGroup, accName, name,
              { RunbookCreateOrUpdateProperties := some
                  { LogVerbose := some logVerbose
                    LogProgress := some logProgress
                    RunbookType := runbookType
                    Description := some description
                    PublishContentLink := some { URI := some uri } }
                Name := some name
                Location := some location
                Tags := h.expandTags tags }))
    ∧ (∀ name resGroup accName description f,
        d.Get "name" = .str name → d.Get "resource_group_name" = .str resGroup →
        d.Get "account_name" = .str accName → d.Get "description" = .str description →
        d.Get "frequency" = .str f →
        scheduleCreateUpdateArguments d
          = .ok (resGroup, accName, name,
              { Name := some name
                ScheduleCreateOrUpdateProperties := some
                  { Description := some description
                    StartTime := none
                    ExpiryTime := none
                    Interval := some [(f, d.Get "interval")]
                    Frequency := f } })) := by
  refine ⟨?_, ?_, ?_⟩
  · intro name location resGroup tags code block rest v hn hl hg ht hs hv
    have hexp : expandSku d = .ok { Name := v } := by
      simp [expandSku, hs, Value.asSet, SchemaSet.List, sliceIndex, Value.asMap, hv,
        Value.asString, except_ok_bind, except_ok_map]
    simp [accountCreateUpdateArguments, hn, hl, hg, ht, hexp, Value.asString, Value.asMap,
      except_ok_bind, except_pure]
  · intro name location resGroup tags accName runbookType logProgress logVerbose description
      code block rest uri hn hl hg ht ha hr hp hv hd hs hu
    have hexp : expandContentLink d = .ok { URI := some uri } := by
      simp [expandContentLink, hs, Value.asSet, SchemaSet.List, sliceIndex, Value.asMap, hu,
        Value.asString, except_ok_bind, except_ok_map]
    simp [runbookCreateUpdateArguments, hn, hl, hg, ht, ha, hr, hp, hv, hd, hexp,
      Value.asString, Value.asMap, Value.asBool, except_ok_bind, except_pure]
  · intro name resGroup accName description f hn hg ha hd hf
    simp [scheduleCreateUpdateArguments, hn, hg, ha, hd, hf, Value.asString, GoMap.assign,
      except_ok_bind, except_pure]

/-- Witness for C12: an account whose sku block reads "basic" in lower case (valid up to
case): the payload carries "basic". -/
theorem enum_values_sent_verbatim_witness :
    StringInSlice ["Free", "Basic"] true "basic" = true
    ∧ accountCreateUpdateArguments sampleHelpers
        { schema := resourceArmAutomationAccount, id := "",
          fields := [("name", .str "acct1"), ("location", .str "westus"),
                     ("resource_group_name", .str "RG"),
                     ("sku", .set [(5, .map [("name", .str "basic")])]),
                     ("tags", .map [])] }
      = .ok ("RG", "acct1",
          { AccountCreateOrUpdateProperties := some { Sku := some { Name := "basic" } }
            Name := some "acct1"
            Location := some "westus"
            Tags := sampleHelpers.expandTags [] }) :=
  ⟨by decide,
   (enum_values_sent_verbatim sampleHelpers
      { schema := resourceArmAutomationAccount, id := "",
        fields := [("name", .str "acct1"), ("location", .str "westus"),
                   ("resource_group_name", .str "RG"),
                   ("sku", .set [(5, .map [("name", .str "basic")])]),
                   ("tags", .map [])] }).1
      "acct1" "westus" "RG" [] 5 [("name", .str "basic")] [] "basic"
      rfl rfl rfl rfl rfl rfl⟩

/-! ## Read on a remote failure -/

/-- Claim C13. For the Account, Runbook and Schedule read handlers and every identity
that parses: when the `Get` answers with an error and `responseWasNotFound` does not
recognise the response, Read returns an error whose message is "Error making Read
request on AzureRM Automation ... '", the name recovered from the identity, "': " and
the text of the underlying error; the local state (identity and fields) is returned as
it was. The last part says that such a message contains the name and the text. -/
theorem read_failure_names_resource_and_cause {σ : Type} (h : Helpers)
    (armClient : ArmClient σ) (d : ResourceData) (w : World σ) (id : ResourceID)
    (hid : h.parseAzureResourceID d.Id = .ok id) :
    (∀ remote resp err,
      armClient.automationAccountClient.Get w.remote id.ResourceGroup
          (stringMapIndex id.Path "automationAccounts") = (remote, resp, some err) →
      h.responseWasNotFound resp.Response = false →
      resourceArmAutomationAccountRead h armClient d w
        = .returned d (resourceArmAutomationAccountRead h armClient d w).world
            (some { msg := "Error making Read request on AzureRM Automation Account '"
              ++ stringMapIndex id.Path "automationAccounts" ++ "': " ++ err.msg }))
    ∧ (∀ remote resp err,
      armClient.automationRunbookClient.Get w.remote id.ResourceGroup
          (stringMapIndex id.Path "automationAccounts") (stringMapIndex id.Path "runbooks")
        = (remote, resp, some err) →
      h.responseWasNotFound resp.Response = false →
      resourceArmAutomationRunbookRead h armClient d w
        = .returned d (resourceArmAutomationRunbookRead h armClient d w).world
            (some { msg := "Error making Read request on AzureRM Automation Runbook '"
              ++ stringMapIndex id.Path "runbooks" ++ "': " ++ err.msg }))
    ∧ (∀ remote resp err,
      armClient.automationScheduleClient.Get w.remote id.ResourceGroup
          (stringMapIndex id.Path "automationAccounts") (stringMapIndex id.Path "schedules")
        = (remote, resp, some err) →
      h.responseWasNotFound resp.Response = false →
      resourceArmAutomationScheduleRead h armClient d w
        = .returned d (resourceArmAutomationScheduleRead h armClient d w).world
            (some { msg := "Error making Read request on AzureRM Automation Schedule '"
              ++ stringMapIndex id.Path "schedules" ++ "': " ++ err.msg }))
    ∧ (∀ lead name cause : String,
        (∃ before after, lead ++ name ++ "': " ++ cause = before ++ name ++ after)
        ∧ (∃ before after, lead ++ name ++ "': " ++ cause = before ++ cause ++ after)) := by
  refine ⟨?_, ?_, ?_, ?_⟩
  · intro remote resp err hget hnf
    simp [resourceArmAutomationAccountRead, hid, World.record, World.after, hget, hnf,
      Run.world]
  · intro remote resp err hget hnf
    simp [resourceArmAutomationRunbookRead, hid, World.record, World.after, hget, hnf,
      Run.world]
  · intro remote resp err hget hnf
    simp [resourceArmAutomationScheduleRead, hid, World.record, World.after, hget, hnf,
      Run.world]
  · intro lead name cause
    refine ⟨⟨lead, "': " ++ cause, ?_⟩, ⟨lead ++ name ++ "': ", "", ?_⟩⟩
    · simp [String.append_assoc]
    · simp

/-- Witness for C13: the remote answers the `Get` for the sample schedule with status
500; Read returns the error naming `sch1` and the cause, the local state untouched. -/
theorem read_failure_names_resource_and_cause_witness :
    sampleHelpers.responseWasNotFound (httpStatus 500) = false
    ∧ resourceArmAutomationScheduleRead sampleHelpers (failingArmClient false)
          (sampleScheduleData sampleScheduleId) { remote := [], log := [] }
      = .returned (sampleScheduleData sampleScheduleId)
          (resourceArmAutomationScheduleRead sampleHelpers (failingArmClient false)
            (sampleScheduleData sampleScheduleId) { remote := [], log := [] }).world
          (some { msg := "Error making Read request on AzureRM Automation Schedule '"
            ++ "sch1" ++ "': " ++ "InternalServerError" })
    ∧ stringMapIndex [("automationAccounts", "acct1"), ("schedules", "sch1")] "schedules"
      = "sch1" :=
  ⟨rfl,
   (read_failure_names_resource_and_cause sampleHelpers (failingArmClient false)
      (sampleScheduleData sampleScheduleId) { remote := [], log := [] }
      { ResourceGroup := "RG", Path := [("automationAccounts", "acct1"), ("schedules", "sch1")] }
      rfl).2.2.1 []
      { sampleSchedule false false with Response := httpStatus 500 }
      { msg := "InternalServerError" } rfl rfl,
   rfl⟩

/-! ## Account schema: which fields force a new resource -/

/-- Claim C14 fails as stated: the declaration of `sku` in the Account schema does not set
`ForceNew`, so `sku` is not marked force-new. -/
theorem account_sku_not_force_new :
    (schemaField resourceArmAutomationAccount "sku").map (fun f => f.ForceNew) = some false
    ∧ (schemaField resourceArmAutomationAccount "sku").map (fun f => f.ForceNew)
      ≠ some true := by
  have e : (schemaField resourceArmAutomationAccount "sku").map (fun f => f.ForceNew)
      = some false := rfl
  rw [e]
  simp

/-- Claim C14 as amended. In the Account schema `name`, `location` and
`resource_group_name` are marked force-new; `sku` is not: its declaration sets the type,
`Required`, `MaxItems` 1, `Elem` and `Set`, and leaves `ForceNew` at false; and `tags`,
declared by `tagsSchema()`, is not force-new. -/
theorem account_schema_force_new :
    (schemaField resourceArmAutomationAccount "name").map (fun f => f.ForceNew) = some true
    ∧ (schemaField resourceArmAutomationAccount "location").map (fun f => f.ForceNew)
      = some true
    ∧ (schemaField resourceArmAutomationAccount "resource_group_name").map
        (fun f => f.ForceNew) = some true
    ∧ (schemaField resourceArmAutomationAccount "sku").map (fun f => f.ForceNew)
      = some false
    ∧ schemaField resourceArmAutomationAccount "sku"
      = some
          { Typ := .TypeSet
            Required := true
            ForceNew := false
            MaxItems := 1
            StateFunc := none
            DiffSuppressFunc := none
            ValidateFunc := none
            Elem := [("name", { Typ := .TypeString, Required := true,
                                DiffSuppressFunc := some "ignoreCaseDiffSuppressFunc",
                                ValidateFunc := some (["Free", "Basic"], true) })]
            Set := some "resourceAzureRMAutomationAccountSkuHash" }
    ∧ schemaField resourceArmAutomationAccount "tags" = some tagsSchema
    ∧ (schemaField resourceArmAutomationAccount "tags").map (fun f => f.ForceNew)
      = some false :=
  ⟨rfl, rfl, rfl, rfl, rfl, rfl, rfl⟩

/-! ## CreateOrUpdate on a remote failure -/

/-- Claim C16. For the Account, Runbook and Schedule CreateOrUpdate handlers, once the
arguments are built: when the remote create-or-update answers with error `e`, the
handler returns exactly `e`, the log ends with that call (no `Get` follows) and the
local state is returned as it was (first three parts); when the create-or-update
answers without error and the `Get` that follows answers with error `e`, the handler
returns exactly `e` and the local state, identity included, is returned as it was
(last three parts). -/
theorem create_update_returns_remote_error {σ : Type} (h : Helpers)
    (armClient : ArmClient σ) (d : ResourceData) (w : World σ) :
    (∀ resGroup name parameters remote1 created e,
        accountCreateUpdateArguments h d = .ok (resGroup, name, parameters) →
        armClient.automationAccountClient.CreateOrUpdate w.remote resGroup name
            parameters
          = (remote1, created, some e) →
        resourceArmAutomationAccountCreateUpdate h armClient d w
          = .returned d
              { remote := remote1,
                log := w.log ++ [.enter "resourceArmAutomationAccountCreateUpdate",
                  .printf "[INFO] preparing arguments for AzureRM Automation Account creation.",
                  .accountCreateOrUpdate resGroup name parameters] }
              (some e))
    ∧ (∀ resGroup accName name parameters remote1 created e,
        runbookCreateUpdateArguments h d = .ok (resGroup, accName, name, parameters) →
        armClient.automationRunbookClient.CreateOrUpdate w.remote resGroup accName name
            parameters
          = (remote1, created, some e) →
        resourceArmAutomationRunbookCreateUpdate h armClient d w
          = .returned d
              { remote := remote1,
                log := w.log ++ [.enter "resourceArmAutomationRunbookCreateUpdate",
                  .printf "[INFO] preparing arguments for AzureRM Automation Runbook creation.",
                  .runbookCreateOrUpdate resGroup accName name parameters] }
              (some e))
    ∧ (∀ resGroup accName name parameters remote1 created e,
        scheduleCreateUpdateArguments d = .ok (resGroup, accName, name, parameters) →
        armClient.automationScheduleClient.CreateOrUpdate w.remote resGroup accName name
            parameters
          = (remote1, created, some e) →
        resourceArmAutomationScheduleCreateUpdate h armClient d w
          = .returned d
              { remote := remote1,
                log := w.log ++ [.enter "resourceArmAutomationScheduleCreateUpdate",
                  .printf "[INFO] preparing arguments for AzureRM Automation Schedule creation.",
                  .scheduleCreateOrUpdate resGroup accName name parameters] }
              (some e))
    ∧ (∀ resGroup name parameters remote1 created remote2 read e,
        accountCreateUpdateArguments h d = .ok (resGroup, name, parameters) →
        armClient.automationAccountClient.CreateOrUpdate w.remote resGroup name
            parameters
          = (remote1, created, none) →
        armClient.automationAccountClient.Get remote1 resGroup name
          = (remote2, read, some e) →
        resourceArmAutomationAccountCreateUpdate h armClient d w
          = .returned d
              { remote := remote2,
                log := w.log ++ [.enter "resourceArmAutomationAccountCreateUpdate",
                  .printf "[INFO] preparing arguments for AzureRM Automation Account creation.",
                  .accountCreateOrUpdate resGroup name parameters,
                  .accountGet resGroup name] }
              (some e))
    ∧ (∀ resGroup accName name parameters remote1 created remote2 read e,
        runbookCreateUpdateArguments h d = .ok (resGroup, accName, name, parameters) →
        armClient.automationRunbookClient.CreateOrUpdate w.remote resGroup accName name
            parameters
          = (remote1, created, none) →
        armClient.automationRunbookClient.Get remote1 resGroup accName name
          = (remote2, read, some e) →
        resourceArmAutomationRunbookCreateUpdate h armClient d w
          = .returned d
              { remote := remote2,
                log := w.log ++ [.enter "resourceArmAutomationRunbookCreateUpdate",
                  .printf "[INFO] preparing arguments for AzureRM Automation Runbook creation.",
                  .runbookCreateOrUpdate resGroup accName name parameters,
                  .runbookGet resGroup accName name] }
              (some e))
    ∧ (∀ resGroup accName name parameters remote1 created remote2 read e,
        scheduleCreateUpdateArguments d = .ok (resGroup, accName, name, parameters) →
        armClient.automationScheduleClient.CreateOrUpdate w.remote resGroup accName name
            parameters
          = (remote1, created, none) →
        armClient.automationScheduleClient.Get remote1 resGroup accName name
          = (remote2, read, some e) →
        resourceArmAutomationScheduleCreateUpdate h armClient d w
          = .returned d
              { remote := remote2,
                log := w.log ++ [.enter "resourceArmAutomationScheduleCreateUpdate",
                  .printf "[INFO] preparing arguments for AzureRM Automation Schedule creation.",
                  .scheduleCreateOrUpdate resGroup accName name parameters,
                  .scheduleGet resGroup accName name] }
              (some e)) := by
  refine ⟨?_, ?_, ?_, ?_, ?_, ?_⟩
  · intro resGroup name parameters remote1 created e hargs hcreate
    simp [resourceArmAutomationAccountCreateUpdate, hargs, hcreate, World.record, World.after]
  · intro resGroup accName name parameters remote1 created e hargs hcreate
    simp [resourceArmAutomationRunbookCreateUpdate, hargs, hcreate, World.record, World.after]
  · intro resGroup accName name parameters remote1 created e hargs hcreate
    simp [resourceArmAutomationScheduleCreateUpdate, hargs, hcreate, World.record, World.after]
  · intro resGroup name parameters remote1 created remote2 read e hargs hcreate hget
    simp [resourceArmAutomationAccountCreateUpdate, hargs, hcreate, hget, World.record,
      World.after]
  · intro resGroup accName name parameters remote1 created remote2 read e hargs hcreate hget
    simp [resourceArmAutomationRunbookCreateUpdate, hargs, hcreate, hget, World.record,
      World.after]
  · intro resGroup accName name parameters remote1 created remote2 read e hargs hcreate hget
    simp [resourceArmAutomationScheduleCreateUpdate, hargs, hcreate, hget, World.record,
      World.after]

/-- Witness for C16: the sample runbook against a remote that refuses the
create-or-update, and against one that accepts it and refuses the `Get`. -/
theorem create_update_returns_remote_error_witness :
    resourceArmAutomationRunbookCreateUpdate sampleHelpers (failingArmClient true)
        (sampleRunbookData "") { remote := [], log := [] }
      = .returned (sampleRunbookData "")
          { remote := [],
            log := [] ++ [.enter "resourceArmAutomationRunbookCreateUpdate",
              .printf "[INFO] preparing arguments for AzureRM Automation Runbook creation.",
              .runbookCreateOrUpdate "RG" "acct1" "rb1"
                { RunbookCreateOrUpdateProperties := some
                    { LogVerbose := some true, LogProgress := some true,
                      RunbookType := "Script", Description := some "sample",
                      PublishContentLink := some { URI := some "https://host/rb1.ps1" } }
                  Name := some "rb1", Location := some "westus", Tags := some [] }] }
          (some { msg := "InternalServerError" })
    ∧ resourceArmAutomationRunbookCreateUpdate sampleHelpers (failingArmClient false)
        (sampleRunbookData "") { remote := [], log := [] }
      = .returned (sampleRunbookData "")
          { remote := [["RG", "acct1", "rb1"]],
            log := [] ++ [.enter "resourceArmAutomationRunbookCreateUpdate",
              .printf "[INFO] preparing arguments for AzureRM Automation Runbook creation.",
              .runbookCreateOrUpdate "RG" "acct1" "rb1"
                { RunbookCreateOrUpdateProperties := some
                    { LogVerbose := some true, LogProgress := some true,
                      RunbookType := "Script", Description := some "sample",
                      PublishContentLink := some { URI := some "https://host/rb1.ps1" } }
                  Name := some "rb1", Location := some "westus", Tags := some [] },
              .runbookGet "RG" "acct1" "rb1"] }
          (some { msg := "InternalServerError" }) :=
  ⟨(create_update_returns_remote_error sampleHelpers (failingArmClient true)
      (sampleRunbookData "") { remote := [], log := [] }).2.1 "RG" "acct1" "rb1"
      { RunbookCreateOrUpdateProperties := some
          { LogVerbose := some true, LogProgress := some true,
            RunbookType := "Script", Description := some "sample",
            PublishContentLink := some { URI := some "https://host/rb1.ps1" } }
        Name := some "rb1", Location := some "westus", Tags := some [] }
      [] { sampleRunbook false false with Response := httpStatus 500 }
      { msg := "InternalServerError" } rfl rfl,
   (create_update_returns_remote_error sampleHelpers (failingArmClient false)
      (sampleRunbookData "") { remote := [], log := [] }).2.2.2.2.1 "RG" "acct1" "rb1"
      { RunbookCreateOrUpdateProperties := some
          { LogVerbose := some true, LogProgress := some true,
            RunbookType := "Script", Description := some "sample",
            PublishContentLink := some { URI := some "https://host/rb1.ps1" } }
        Name := some "rb1", Location := some "westus", Tags := some [] }
      [["RG", "acct1", "rb1"]] (sampleRunbook true true) [["RG", "acct1", "rb1"]]
      { sampleRunbook false false with Response := httpStatus 500 }
      { msg := "InternalServerError" } rfl rfl rfl⟩

/-! ## Schedule: the declared fields through CreateOrUpdate and Read -/

/-- A Schedule Read that returns leaves every field other than the six it writes
(`name`, `resource_group_name`, `account_name`, `frequency`, `interval`, `description`)
reading as before. -/
theorem schedule_read_keeps_other_fields {σ : Type} (h : Helpers) (armClient : ArmClient σ)
    (d : ResourceData) (w : World σ) (d' : ResourceData) (w' : World σ)
    (err : Option GoError) (k : String)
    (hk : k ∉ ["name", "resource_group_name", "account_name", "frequency", "interval",
      "description"])
    (hrun : resourceArmAutomationScheduleRead h armClient d w = .returned d' w' err) :
    d'.Get k = d.Get k := by
  simp only [List.mem_cons, List.mem_singleton, not_or, List.not_mem_nil, not_false_eq_true,
    and_true] at hk
  obtain ⟨h1, h2, h3, h4, h5, h6⟩ := hk
  unfold resourceArmAutomationScheduleRead at hrun
  cases hp : h.parseAzureResourceID d.Id with
  | error e =>
    simp [hp] at hrun
    rw [← hrun.1]
  | ok id =>
    obtain ⟨remote, resp, err0, hcall⟩ : ∃ remote resp err0,
        armClient.automationScheduleClient.Get w.remote id.ResourceGroup
          (stringMapIndex id.Path "automationAccounts") (stringMapIndex id.Path "schedules")
          = (remote, resp, err0) := ⟨_, _, _, rfl⟩
    cases err0 with
    | some e =>
      simp only [hp, World.record, hcall] at hrun
      split at hrun
      · simp at hrun
        rw [← hrun.1]
        rfl
      · simp at hrun
        rw [← hrun.1]
    | none =>
      simp only [hp, World.record, hcall] at hrun
      cases hprops : resp.ScheduleProperties with
      | none =>
        simp [hprops, deref, except_error_bind] at hrun
      | some props =>
        simp [hprops, deref, except_ok_bind, except_pure] at hrun
        rw [← hrun.1]
        rw [get_set_other _ _ _ _ (Ne.symm h6), get_set_other _ _ _ _ (Ne.symm h5),
          get_set_other _ _ _ _ (Ne.symm h4), get_set_other _ _ _ _ (Ne.symm h3),
          get_set_other _ _ _ _ (Ne.symm h2), get_set_other _ _ _ _ (Ne.symm h1)]

/-- Claim C15, the code at the sample schedule declared with `start_time` and
`expiry_time`, against the remote that stores and returns the payload it was sent.
The payload the handler builds leaves `StartTime` and `ExpiryTime` nil, so what the
remote stores after the run has neither time. The run returns nil and the local state
reads every declared field as declared; for `start_time` and `expiry_time` that is
because no Read that returns, on any remote, changes what these two fields read
(they are the values of the config, not values read back). In particular a Read into a
state that has the identity only leaves both at the empty string even when the remote
answers with both times. -/
theorem schedule_times_not_sent_nor_read :
    (sampleScheduleDataTimed.Get "start_time" = .str "2017-06-01T00:00:00Z"
      ∧ sampleScheduleDataTimed.Get "expiry_time" = .str "2018-06-01T00:00:00Z")
    ∧ scheduleCreateUpdateArguments sampleScheduleDataTimed
      = .ok ("RG", "acct1", "sch1",
          { Name := some "sch1"
            ScheduleCreateOrUpdateProperties := some
              { Description := some "sample"
                StartTime := none
                ExpiryTime := none
                Interval := some [("Week", .int 2)]
                Frequency := "Week" } })
    ∧ ((resourceArmAutomationScheduleCreateUpdate sampleHelpers echoArmClient
          sampleScheduleDataTimed { remote := none, log := [] }).world.remote.map
        (fun stored => stored.2.ScheduleCreateOrUpdateProperties.map
          (fun q => (q.StartTime, q.ExpiryTime)))
      = some (some (none, none)))
    ∧ ((resourceArmAutomationScheduleCreateUpdate sampleHelpers echoArmClient
          sampleScheduleDataTimed { remote := none, log := [] }).data.map
        (fun d => (d.Id, d.Get "name", d.Get "account_name", d.Get "resource_group_name",
          d.Get "frequency", d.Get "description", d.Get "interval", d.Get "start_time",
          d.Get "expiry_time"))
      = some (sampleScheduleId, .str "sch1", .str "acct1", .str "RG", .str "Week",
          .str "sample", .int 2, .str "2017-06-01T00:00:00Z",
          .str "2018-06-01T00:00:00Z"))
    ∧ (∀ {σ : Type} (h : Helpers) (armClient : ArmClient σ) (d : ResourceData)
          (w : World σ) (d' : ResourceData) (w' : World σ) (err : Option GoError),
        resourceArmAutomationScheduleRead h armClient d w = .returned d' w' err →
        d'.Get "start_time" = d.Get "start_time"
        ∧ d'.Get "expiry_time" = d.Get "expiry_time")
    ∧ (echoArmClient.automationScheduleClient.Get
          (some (("RG", "acct1", "sch1"), sampleSchedulePayloadTimed)) "RG" "acct1" "sch1"
      = (some (("RG", "acct1", "sch1"), sampleSchedulePayloadTimed),
          echoSchedule "RG" "acct1" "sch1" sampleSchedulePayloadTimed, none)
      ∧ (echoSchedule "RG" "acct1" "sch1" sampleSchedulePayloadTimed).ScheduleProperties.map
          (fun q => (q.StartTime, q.ExpiryTime))
        = some (some "2017-06-01T00:00:00Z", some "2018-06-01T00:00:00Z"))
    ∧ ((resourceArmAutomationScheduleRead sampleHelpers echoArmClient
          (importedData resourceArmAutomationSchedule sampleScheduleId)
          { remote := some (("RG", "acct1", "sch1"), sampleSchedulePayloadTimed),
            log := [] }).data.map
        (fun d => (d.Get "start_time", d.Get "expiry_time", d.Get "description"))
      = some (.str "", .str "", .str "sample")) :=
  ⟨⟨rfl, rfl⟩, rfl, rfl, rfl,
    fun h armClient d w d' w' err hrun =>
      ⟨schedule_read_keeps_other_fields h armClient d w d' w' err "start_time"
          (by decide) hrun,
        schedule_read_keeps_other_fields h armClient d w d' w' err "expiry_time"
          (by decide) hrun⟩,
    ⟨rfl, rfl⟩, rfl⟩

end Azurerm
